import Mathlib

/-!
Verification of the SENAPRED alert monitor (`monitor_senapred.py`) against its
natural-language specification.

The program's text processing works on Python `str` values; we embed text as
`List Char` (Python strings are sequences of Unicode code points, as is
`List Char`).  Pure functions of the source are translated directly; fallible
operations (regex search, `int()` parsing, `datetime` construction,
JSON/dataclass loading) are embedded with `Option`.  `re.search` / `re.findall`
are embedded through a small backtracking regular-expression engine
(`Re` / `reMt`) whose alternation and quantifier priority order mirrors CPython's
`re` module; every pattern of the source is transcribed as a `Re` value.
-/

set_option autoImplicit false

/-- Apostrophe character (appears in the region name `O'Higgins` and in the
region regex character class). -/
def apos : Char := Char.ofNat 39

/-- Python `str.lower` restricted to the character repertoire that actually
occurs in this program's data: ASCII letters and the Spanish accented capitals. -/
def lowerCh (c : Char) : Char :=
  if 'A' ≤ c ∧ c ≤ 'Z' then Char.ofNat (c.toNat + 32)
  else if c = 'Á' then 'á'
  else if c = 'É' then 'é'
  else if c = 'Í' then 'í'
  else if c = 'Ó' then 'ó'
  else if c = 'Ú' then 'ú'
  else if c = 'Ñ' then 'ñ'
  else if c = 'Ü' then 'ü'
  else c

/-- Python `str.upper` on the same repertoire (used by `str.title`). -/
def upperCh (c : Char) : Char :=
  if 'a' ≤ c ∧ c ≤ 'z' then Char.ofNat (c.toNat - 32)
  else if c = 'á' then 'Á'
  else if c = 'é' then 'É'
  else if c = 'í' then 'Í'
  else if c = 'ó' then 'Ó'
  else if c = 'ú' then 'Ú'
  else if c = 'ñ' then 'Ñ'
  else if c = 'ü' then 'Ü'
  else c

def lowerL (s : List Char) : List Char := s.map lowerCh

/-- Python whitespace (`str.strip`, regex `\s`) for the ASCII range. -/
def isSpaceCh (c : Char) : Bool :=
  c = ' ' ∨ c = '\t' ∨ c = '\n' ∨ c = '\r' ∨ c = Char.ofNat 11 ∨ c = Char.ofNat 12

def isDigitCh (c : Char) : Bool := '0' ≤ c ∧ c ≤ '9'

def isAsciiAlpha (c : Char) : Bool := ('a' ≤ c ∧ c ≤ 'z') ∨ ('A' ≤ c ∧ c ≤ 'Z')

/-- A "letter" for this program's texts: ASCII letters plus the Spanish
accented letters (both cases). -/
def isLetterCh (c : Char) : Bool :=
  isAsciiAlpha c ∨ (("áéíóúñü".toList ++ "ÁÉÍÓÚÑÜ".toList).contains c)

/-- Regex `\w` (word character) for the texts of this program. -/
def isWordCh (c : Char) : Bool := isLetterCh c ∨ isDigitCh c ∨ c = '_'

/-- Does `pat` occur at the head of `s`? -/
def matchAt (pat s : List Char) : Bool :=
  match pat, s with
  | [], _ => true
  | _ :: _, [] => false
  | p :: ps, c :: cs => p = c && matchAt ps cs

/-- Python substring containment `pat in s`. -/
def occursL (pat : List Char) : List Char → Bool
  | [] => pat.isEmpty
  | c :: rest => matchAt pat (c :: rest) || occursL pat rest

/-- Python `str.strip()` (no argument: strips whitespace on both ends). -/
def pyStrip (s : List Char) : List Char :=
  ((s.dropWhile isSpaceCh).reverse.dropWhile isSpaceCh).reverse

/-- Python `str.rstrip('/')`. -/
def rstripSlash (s : List Char) : List Char :=
  (s.reverse.dropWhile (fun c => c = '/')).reverse

/-- Python `str.split('/')`; always returns a non-empty list. -/
def splitSlash : List Char → List (List Char)
  | [] => [[]]
  | c :: rest =>
    match splitSlash rest with
    | [] => [[]]
    | cur :: parts => if c = '/' then [] :: cur :: parts else (c :: cur) :: parts

theorem splitSlash_ne_nil (s : List Char) : splitSlash s ≠ [] := by
  cases s with
  | nil => simp [splitSlash]
  | cons c rest =>
    simp only [splitSlash]
    rcases h : splitSlash rest with _ | ⟨cur, parts⟩
    · simp
    · by_cases hc : c = '/' <;> simp [hc]

/-- Python `str.title()`: the first letter of each maximal run of letters is
uppercased, the remaining letters lowercased, other characters unchanged. -/
def pyTitleGo (prevLetter : Bool) : List Char → List Char
  | [] => []
  | c :: rest =>
    if isLetterCh c then
      (if prevLetter then lowerCh c else upperCh c) :: pyTitleGo true rest
    else
      c :: pyTitleGo false rest

def pyTitle (s : List Char) : List Char := pyTitleGo false s

/-- Python `", ".join` over a list of strings. -/
def joinComma (xs : List (List Char)) : List Char :=
  List.intercalate (", ".toList) xs

/-- Python `"; ".join`. -/
def joinSemi (xs : List (List Char)) : List Char :=
  List.intercalate ("; ".toList) xs

/-- Python `" ".join`. -/
def joinSpace (xs : List (List Char)) : List Char :=
  List.intercalate (" ".toList) xs

/-- Python truthiness of a string combined with `or`: `a or b`. -/
def pyOr (a b : List Char) : List Char := if a = [] then b else a

/-- Python `int()` digit run: digits possibly separated by single
underscores (`int("1_0") = 10`). -/
def pyDigitsGo (acc : Nat) : List Char → Option Nat
  | [] => some acc
  | '_' :: c :: rest =>
    if isDigitCh c then pyDigitsGo (acc * 10 + (c.toNat - 48)) rest else none
  | '_' :: [] => none
  | c :: rest =>
    if isDigitCh c then pyDigitsGo (acc * 10 + (c.toNat - 48)) rest else none

def pyDigits : List Char → Option Nat
  | [] => none
  | c :: rest => if isDigitCh c then pyDigitsGo (c.toNat - 48) rest else none

/-- Python `int(str)`: strips whitespace, optional sign, digit run.
Any failure raises `ValueError`, embedded as `none`. -/
def pyInt (s : List Char) : Option Int :=
  match pyStrip s with
  | '+' :: rest => (pyDigits rest).map (fun n => (n : Int))
  | '-' :: rest => (pyDigits rest).map (fun n => -(n : Int))
  | rest => (pyDigits rest).map (fun n => (n : Int))

/-- `int()` applied to a regex group that is known to be a run of digits
(patterns `\d+` etc.); the `none` case is unreachable for such groups. -/
def intOfGroup (g : List Char) : Int := (pyInt g).getD 0

/-- Python `f"{n:02d}"` for the non-negative numbers produced by the
two-digit regex groups of this program. -/
def fmt02 (n : Nat) : List Char :=
  if n < 10 then '0' :: Nat.toDigits 10 n else Nat.toDigits 10 n

/-- Decimal rendering of a year (Python `f"{anio}"`, year non-negative here). -/
def fmtNat (n : Nat) : List Char := Nat.toDigits 10 n

/-!
## Regular-expression engine

`Re` is the abstract syntax of the regex dialect used by the source.
`reMt` enumerates the possible matches of a regex at the head of the input,
in CPython backtracking priority order: the head of the returned list is the
match `re` would commit to.  `rep greedy lo hi r` is the general quantifier
(`?`, `*`, `+`, `{m,n}`, with greedy and lazy variants).  Every quantified
sub-pattern appearing in the source consumes at least one character per
iteration, so the engine requires progress on each iteration (as CPython's
engine effectively does for such patterns); `fuel` makes this evidently total.
`eos` is `$`, which in Python also matches just before a final newline.
-/

inductive Re where
  | eps : Re
  | chr (p : Char → Bool) : Re
  | cat (r1 r2 : Re) : Re
  | alt (r1 r2 : Re) : Re
  | rep (greedy : Bool) (lo : Nat) (hi : Option Nat) (r : Re) : Re
  | grp (idx : Nat) (r : Re) : Re
  | eos : Re

/-- Group captures: group index to captured characters. -/
abbrev Caps := List (Nat × List Char)

def capSet (caps : Caps) (i : Nat) (v : List Char) : Caps :=
  (i, v) :: caps.filter (fun p => p.1 ≠ i)

def capGet (caps : Caps) (i : Nat) : Option (List Char) :=
  (caps.find? (fun p => p.1 = i)).map Prod.snd

def decOpt : Option Nat → Option Nat := Option.map (fun n => n - 1)

/-- Structural size of a regex (used for the fuel bound). -/
def reSize : Re → Nat
  | .eps => 1
  | .chr _ => 1
  | .eos => 1
  | .cat r1 r2 => reSize r1 + reSize r2 + 1
  | .alt r1 r2 => reSize r1 + reSize r2 + 1
  | .rep _ _ _ r => reSize r + 1
  | .grp _ r => reSize r + 1

/-- All matches of `r` at the head of `s`, as (remaining input, captures),
in backtracking priority order.  `fuel` bounds the recursion depth and is
decremented on every call, making the definition structurally recursive (so
it reduces inside the kernel); `reFuel` below supplies more fuel than the
recursion can consume: between two unrollings of one quantifier at most
`reSize r` nested calls happen, every quantifier iteration consumes at least
one character (all quantified sub-patterns of this program's regexes match at
least one character), and quantifier nesting depth in those patterns is at
most two, so the depth is below `(reSize r + 1) * (length + 2)^2`. -/
def reMt : Nat → Re → List Char → Caps → List (List Char × Caps)
  | 0, _, _, _ => []
  | fuel + 1, r, s, caps =>
    match r with
    | .eps => [(s, caps)]
    | .eos =>
      match s with
      | [] => [(s, caps)]
      | ['\n'] => [(s, caps)]
      | _ => []
    | .chr p =>
      match s with
      | [] => []
      | c :: rest => if p c then [(rest, caps)] else []
    | .cat r1 r2 =>
      (reMt fuel r1 s caps).flatMap (fun pr => reMt fuel r2 pr.1 pr.2)
    | .alt r1 r2 => reMt fuel r1 s caps ++ reMt fuel r2 s caps
    | .grp i r1 =>
      (reMt fuel r1 s caps).map
        (fun pr => (pr.1, capSet pr.2 i (s.take (s.length - pr.1.length))))
    | .rep greedy lo hi r1 =>
      if hi = some 0 then [(s, caps)]
      else
        let more :=
          (reMt fuel r1 s caps).flatMap
            (fun pr =>
              if pr.1.length < s.length then
                reMt fuel (.rep greedy (lo - 1) (decOpt hi) r1) pr.1 pr.2
              else [])
        if lo = 0 then
          if greedy then more ++ [(s, caps)] else (s, caps) :: more
        else more

/-- Fuel bound for `reMt`; see its docstring. -/
def reFuel (r : Re) (s : List Char) : Nat :=
  (reSize r + 1) * (s.length + 2) * (s.length + 2)

/-- The committed match of `r` at the start of `s`: the head of the
backtracking-ordered match list, as (captures, remaining input). -/
def reTry (r : Re) (s : List Char) : Option (Caps × List Char) :=
  ((reMt (reFuel r s) r s []).head?).map (fun pr => (pr.2, pr.1))

/-- `re.search`: leftmost match, highest backtracking priority; returns the
captures and the input remaining after the match (used by `findall`). -/
def reSearchCore (r : Re) : List Char → Option (Caps × List Char)
  | [] => reTry r []
  | c :: tail =>
    match reTry r (c :: tail) with
    | some res => some res
    | none => reSearchCore r tail

/-- `re.search` returning the captures of the match, if any. -/
def reSearch (r : Re) (s : List Char) : Option Caps :=
  (reSearchCore r s).map Prod.fst

/-- `m.group(i)` of the first match, if the match exists and group `i`
participated. -/
def reSearch1 (r : Re) (s : List Char) : Option (List Char) :=
  (reSearch r s).bind (fun caps => capGet caps 1)

/-- `re.findall`: successive non-overlapping matches.  All patterns this
program scans with `findall` match at least one character, so each match
strictly shortens the remaining input; `fuel` makes totality evident. -/
def reFindAll (fuel : Nat) (r : Re) (s : List Char) : List Caps :=
  match fuel with
  | 0 => []
  | fuel' + 1 =>
    match reSearchCore r s with
    | none => []
    | some (caps, rest) =>
      if rest.length < s.length then caps :: reFindAll fuel' r rest
      else [caps]

def reFind (r : Re) (s : List Char) : List Caps :=
  reFindAll (s.length + 1) r s

/-! Pattern construction helpers. -/

def rcat (rs : List Re) : Re := rs.foldr Re.cat Re.eps

def ralts (rs : List Re) : Re :=
  match rs with
  | [] => Re.eps
  | [r] => r
  | r :: rest => Re.alt r (ralts rest)

def rch (c : Char) : Re := .chr (fun x => x = c)

/-- A literal character under `re.IGNORECASE` (`c` given in lowercase). -/
def rchCI (c : Char) : Re := .chr (fun x => lowerCh x = c)

def rlit (s : String) : Re := rcat (s.toList.map rch)

def rlitCI (s : String) : Re := rcat (s.toList.map rchCI)

def rdigit : Re := .chr isDigitCh

def rspace : Re := .chr isSpaceCh

def rword : Re := .chr isWordCh

def ropt (r : Re) : Re := .rep true 0 (some 1) r

def rstar (r : Re) : Re := .rep true 0 none r

def rplus (r : Re) : Re := .rep true 1 none r

def rplusLazy (r : Re) : Re := .rep false 1 none r

def rtimes (lo hi : Nat) (r : Re) : Re := .rep true lo (some hi) r

/-- Character class `[...]` given as the set of member characters. -/
def rcls (s : String) : Re := .chr (fun x => s.toList.contains x)

/-- Character class under `re.IGNORECASE` (`s` given in lowercase). -/
def rclsCI (s : String) : Re := .chr (fun x => s.toList.contains (lowerCh x))

/-- Negated character class `[^...]`. -/
def rncls (s : String) : Re := .chr (fun x => !(s.toList.contains x))

def rgrp (i : Nat) (r : Re) : Re := .grp i r

/-!
## Configuration data of the source
-/

def REGIONES_CHILE : List (List Char) :=
  [ ("Arica y Parinacota".toList), ("Tarapacá".toList), ("Antofagasta".toList),
    ("Atacama".toList), ("Coquimbo".toList), ("Valparaíso".toList),
    ("Metropolitana".toList), (("O".toList) ++ [apos] ++ ("Higgins".toList)),
    ("Maule".toList), ("Ñuble".toList), ("Biobío".toList),
    ("La Araucanía".toList), ("Los Ríos".toList), ("Los Lagos".toList),
    ("Aysén".toList), ("Magallanes".toList) ]

def MESES_ES : List (List Char × Nat) :=
  [ (("enero".toList), 1), (("febrero".toList), 2), (("marzo".toList), 3),
    (("abril".toList), 4), (("mayo".toList), 5), (("junio".toList), 6),
    (("julio".toList), 7), (("agosto".toList), 8), (("septiembre".toList), 9),
    (("octubre".toList), 10), (("noviembre".toList), 11), (("diciembre".toList), 12) ]

/-- Python `MESES_ES.get(nombre, 1)`. -/
def mesesGet (nombre : List Char) : Nat :=
  (((MESES_ES.find? (fun p => p.1 = nombre))).map Prod.snd).getD 1

/-!
## The regex patterns of the source, transcribed

Names ending in `Pat` are direct transcriptions of the `re` pattern strings.
`CI` helpers implement `re.IGNORECASE` (captures keep the original case).
-/

/-- Class `[A-Z]`. -/
def rupper : Re := .chr (fun c => decide ('A' ≤ c ∧ c ≤ 'Z'))

/-- Class `[A-Za-záéíóúñÁÉÍÓÚÑ\s\']` of the region pattern. -/
def regionCls : Re :=
  .chr (fun c => isAsciiAlpha c || (("áéíóúñÁÉÍÓÚÑ".toList).contains c) ||
        isSpaceCh c || c = apos)

/-- Class `[A-Za-záéíóúñÁÉÍÓÚÑ,\s]` of the comuna pattern. -/
def comunaCls : Re :=
  .chr (fun c => isAsciiAlpha c || (("áéíóúñÁÉÍÓÚÑ".toList).contains c) ||
        c = ',' || isSpaceCh c)

/-- `(\d{4})-(\d{2})-(\d{2})-(\d{2})-(\d{2})-(\d{2})$` of `parsear_fecha_desde_url`. -/
def reFechaUrlPat : Re := rcat
  [ rgrp 1 (rtimes 4 4 rdigit), rch '-', rgrp 2 (rtimes 2 2 rdigit), rch '-',
    rgrp 3 (rtimes 2 2 rdigit), rch '-', rgrp 4 (rtimes 2 2 rdigit), rch '-',
    rgrp 5 (rtimes 2 2 rdigit), rch '-', rgrp 6 (rtimes 2 2 rdigit), Re.eos ]

/-- `(\d{1,2}):(\d{2})` of `parsear_fecha_texto`. -/
def reHoraPat : Re := rcat
  [ rgrp 1 (rtimes 1 2 rdigit), rch ':', rgrp 2 (rtimes 2 2 rdigit) ]

/-- `(\d{1,2})\s*de\s*([a-záéíóú]+)\s*(?:de\s*)?(\d{4})` of `parsear_fecha_texto`. -/
def reFechaTextoPat : Re := rcat
  [ rgrp 1 (rtimes 1 2 rdigit), rstar rspace, rlit "de", rstar rspace,
    rgrp 2 (rplus (rcls "abcdefghijklmnopqrstuvwxyzáéíóú")), rstar rspace,
    ropt (rcat [rlit "de", rstar rspace]), rgrp 3 (rtimes 4 4 rdigit) ]

/-- `entre\s+el\s+\w+\s+(\d{1,2})\s+y\s+el\s+\w+\s+(\d{1,2})\s+de\s+(\w+)(?:\s+de\s+(\d{4}))?`
of `extraer_rango_fechas`. -/
def rangoPat1 : Re := rcat
  [ rlit "entre", rplus rspace, rlit "el", rplus rspace, rplus rword, rplus rspace,
    rgrp 1 (rtimes 1 2 rdigit), rplus rspace, rch 'y', rplus rspace, rlit "el",
    rplus rspace, rplus rword, rplus rspace, rgrp 2 (rtimes 1 2 rdigit),
    rplus rspace, rlit "de", rplus rspace, rgrp 3 (rplus rword),
    ropt (rcat [rplus rspace, rlit "de", rplus rspace, rgrp 4 (rtimes 4 4 rdigit)]) ]

/-- `desde\s+el\s+(\d{1,2})\s+de\s+(\w+)(?:\s+de\s+(\d{4}))?` of `extraer_rango_fechas`. -/
def rangoPat2 : Re := rcat
  [ rlit "desde", rplus rspace, rlit "el", rplus rspace, rgrp 1 (rtimes 1 2 rdigit),
    rplus rspace, rlit "de", rplus rspace, rgrp 2 (rplus rword),
    ropt (rcat [rplus rspace, rlit "de", rplus rspace, rgrp 3 (rtimes 4 4 rdigit)]) ]

/-- `regi[oó]n\s+(?:del?|de\s+la)\s+([A-Za-záéíóúñÁÉÍÓÚÑ\s\']+?)(?:\s+por|\s*,|\s*\.)`
(IGNORECASE) of `_extraer_region`. -/
def regionPat : Re := rcat
  [ rlitCI "regi", rclsCI "oó", rchCI 'n', rplus rspace,
    Re.alt (rcat [rlitCI "de", ropt (rchCI 'l')])
           (rcat [rlitCI "de", rplus rspace, rlitCI "la"]),
    rplus rspace, rgrp 1 (.rep false 1 none regionCls),
    ralts [rcat [rplus rspace, rlitCI "por"], rcat [rstar rspace, rch ','],
           rcat [rstar rspace, rch '.']] ]

/-- `provincia[s]?\s+(?:de\s+)?([^\.]+?)(?:\s+por|\s*\.)` (IGNORECASE)
of `_extraer_provincias`. -/
def provinciasPat : Re := rcat
  [ rlitCI "provincia", ropt (rchCI 's'), rplus rspace,
    ropt (rcat [rlitCI "de", rplus rspace]),
    rgrp 1 (.rep false 1 none (rncls ".")),
    Re.alt (rcat [rplus rspace, rlitCI "por"]) (rcat [rstar rspace, rch '.']) ]

/-- `comuna[s]?\s+(?:de\s+)?([A-Za-záéíóúñÁÉÍÓÚÑ,\s]+?)(?:\s+por|\s+debido|\s*\.)`
(IGNORECASE) of `_extraer_comunas`. -/
def comunasPat : Re := rcat
  [ rlitCI "comuna", ropt (rchCI 's'), rplus rspace,
    ropt (rcat [rlitCI "de", rplus rspace]),
    rgrp 1 (.rep false 1 none comunaCls),
    ralts [rcat [rplus rspace, rlitCI "por"], rcat [rplus rspace, rlitCI "debido"],
           rcat [rstar rspace, rch '.']] ]

/-- `(?:alerta\s+\w+)\s+(?:para\s+[^,]+)?\s*por\s+([^\.]+)` (IGNORECASE)
of `_extraer_causa_detallada`. -/
def causaPat : Re := rcat
  [ rlitCI "alerta", rplus rspace, rplus rword, rplus rspace,
    ropt (rcat [rlitCI "para", rplus rspace, rplus (rncls ",")]),
    rstar rspace, rlitCI "por", rplus rspace, rgrp 1 (rplus (rncls ".")) ]

/-- `(De acuerdo con[^\.]+\.)` of `_extraer_descripcion`. -/
def descPat1 : Re :=
  rgrp 1 (rcat [rlit "De acuerdo con", rplus (rncls "."), rch '.'])

/-- `(En consideraci[oó]n a[^\.]+\.)` of `_extraer_descripcion`. -/
def descPat2 : Re :=
  rgrp 1 (rcat [rlit "En consideraci", rcls "oó", rlit "n a", rplus (rncls "."), rch '.'])

/-- `((?:la\s+)?Direcci[oó]n Meteorol[oó]gica[^\.]+\.)` of `_extraer_descripcion`. -/
def descPat3 : Re :=
  rgrp 1 (rcat [ropt (rcat [rlit "la", rplus rspace]), rlit "Direcci", rcls "oó",
                rlit "n Meteorol", rcls "oó", rlit "gica", rplus (rncls "."), rch '.'])

/-- `a\s+partir\s+del?\s+(?:d[ií]a\s+)?(\d{1,2})\s+de\s+(\w+)` of `_extraer_fecha_inicio`. -/
def partirPat : Re := rcat
  [ rch 'a', rplus rspace, rlit "partir", rplus rspace, rlit "de", ropt (rch 'l'),
    rplus rspace, ropt (rcat [rch 'd', rcls "ií", rch 'a', rplus rspace]),
    rgrp 1 (rtimes 1 2 rdigit), rplus rspace, rlit "de", rplus rspace,
    rgrp 2 (rplus rword) ]

/-- `hasta\s+el?\s+(?:d[ií]a\s+)?(\d{1,2})\s+de\s+(\w+)` of `_extraer_fecha_fin`. -/
def hastaPat : Re := rcat
  [ rlit "hasta", rplus rspace, rch 'e', ropt (rch 'l'), rplus rspace,
    ropt (rcat [rch 'd', rcls "ií", rch 'a', rplus rspace]),
    rgrp 1 (rtimes 1 2 rdigit), rplus rspace, rlit "de", rplus rspace,
    rgrp 2 (rplus rword) ]

/-- `vigente\s+(desde[^\.]+|hasta[^\.]+)` of `_extraer_vigencia`. -/
def vigentePat : Re := rcat
  [ rlit "vigente", rplus rspace,
    rgrp 1 (Re.alt (rcat [rlit "desde", rplus (rncls ".")])
                   (rcat [rlit "hasta", rplus (rncls ".")])) ]

/-- `[Aa]viso\s+[Mm]eteorol[oó]gico\s+([A-Z]?\d+[-∕]?\d*/?(?:\d{4})?)`
of `_extraer_aviso_dmc` (here `∕` stands for the ASCII slash, which cannot be
written after `-` inside this comment). -/
def avisoPat1 : Re := rcat
  [ rcls "Aa", rlit "viso", rplus rspace, rcls "Mm", rlit "eteorol", rcls "oó",
    rlit "gico", rplus rspace,
    rgrp 1 (rcat [ropt rupper, rplus rdigit, ropt (rcls "-/"), rstar rdigit,
                  ropt (rch '/'), ropt (rtimes 4 4 rdigit)]) ]

/-- `[Aa]viso\s+([A-Z]\d+[-∕]\d+)` of `_extraer_aviso_dmc` (`∕` as above). -/
def avisoPat2 : Re := rcat
  [ rcls "Aa", rlit "viso", rplus rspace,
    rgrp 1 (rcat [rupper, rplus rdigit, rcls "-/", rplus rdigit]) ]

/-- `[Aa]lerta\s+[Mm]eteorol[oó]gica\s+([A-Z]+\d+[-∕]?\d*)` of `_extraer_aviso_dmc`
(`∕` as above). -/
def avisoPat3 : Re := rcat
  [ rcls "Aa", rlit "lerta", rplus rspace, rcls "Mm", rlit "eteorol", rcls "oó",
    rlit "gica", rplus rspace,
    rgrp 1 (rcat [rplus rupper, rplus rdigit, ropt (rcls "-/"), rstar rdigit]) ]

/-- `(\d{1,2})\s*(?:a|y|-)\s*(\d{1,2})\s*°?\s*[Cc]` of `_extraer_temperaturas`. -/
def tempsPat1 : Re := rcat
  [ rgrp 1 (rtimes 1 2 rdigit), rstar rspace, rcls "ay-", rstar rspace,
    rgrp 2 (rtimes 1 2 rdigit), rstar rspace, ropt (rch '°'), rstar rspace, rcls "Cc" ]

/-- `(\d{1,2})\s*°\s*[Cc]` of `_extraer_temperaturas`. -/
def tempsPat2 : Re := rcat
  [ rgrp 1 (rtimes 1 2 rdigit), rstar rspace, rch '°', rstar rspace, rcls "Cc" ]

/-- `m[aá]ximas?\s+(?:de\s+)?(?:hasta\s+)?(\d{1,2})` of `_extraer_temperaturas`. -/
def tempsPat3 : Re := rcat
  [ rch 'm', rcls "aá", rlit "xima", ropt (rch 's'), rplus rspace,
    ropt (rcat [rlit "de", rplus rspace]), ropt (rcat [rlit "hasta", rplus rspace]),
    rgrp 1 (rtimes 1 2 rdigit) ]

/-- `recomienda[^:]*:?\s*([^\.]+(?:\.[^\.]+){0,3})` (IGNORECASE)
of `_extraer_recomendaciones`. -/
def recomPat : Re := rcat
  [ rlitCI "recomienda", rstar (rncls ":"), ropt (rch ':'), rstar rspace,
    rgrp 1 (rcat [rplus (rncls "."),
                  rtimes 0 3 (rcat [rch '.', rplus (rncls ".")])]) ]

/-- `(\d+(?:[.,]\d+)?)\s*(?:hect[aá]rea|ha)` (IGNORECASE) of `_extraer_superficie`. -/
def superficiePat : Re := rcat
  [ rgrp 1 (rcat [rplus rdigit, ropt (rcat [rcls ".,", rplus rdigit])]), rstar rspace,
    Re.alt (rcat [rlitCI "hect", rclsCI "aá", rlitCI "rea"]) (rlitCI "ha") ]

/-!
## Data model

The `Alerta` dataclass of the source, field for field.  Text fields are
`List Char`; `dias_antiguedad` is a Python `int`, so `Int`.
-/

structure Alerta where
  id : List Char
  url : List Char
  tipo : List Char
  nivel_alerta : List Char
  region : List Char
  provincias : List Char
  comunas : List Char
  zonas_afectadas : List Char
  amenaza : List Char
  causa : List Char
  descripcion : List Char
  fecha_declaracion : List Char
  hora_declaracion : List Char
  fecha_inicio_evento : List Char
  fecha_fin_evento : List Char
  vigencia : List Char
  aviso_meteorologico : List Char
  temperaturas_esperadas : List Char
  condiciones : List Char
  recursos_desplegados : List Char
  acciones_realizadas : List Char
  recomendaciones : List Char
  superficie_afectada : List Char
  alertas_relacionadas : List Char
  fuente_informacion : List Char
  fecha_deteccion : List Char
  estado_monitor : List Char
  contenido_hash : List Char
  dias_antiguedad : Int
  deriving DecidableEq, Repr

instance : Inhabited Alerta :=
  ⟨⟨[], [], [], [], [], [], [], [], [], [], [], [], [], [], [], [], [], [], [],
    [], [], [], [], [], [], [], [], [], 0⟩⟩

/-- The `CambioEstado` dataclass of the source. -/
structure CambioEstado where
  alerta_id : List Char
  tipo_cambio : List Char
  fecha_hora : List Char
  descripcion : List Char
  deriving DecidableEq, Repr

/-!
## Date arithmetic

`datetime(anio, mes, dia)` validates its arguments (raising `ValueError`
otherwise, `none` here) and `datetime.now() - datetime(y, m, d)` gives a
`timedelta` whose `.days` equals the difference of the civil day numbers
(the normalised seconds part lies in `[0, 86400)`, so it never alters
`.days`).  `days_from_civil` is the standard proleptic-Gregorian day count
(1970-01-01 is day 0).
-/

def esBisiesto (y : Int) : Bool :=
  y % 4 = 0 ∧ (y % 100 ≠ 0 ∨ y % 400 = 0)

def diasEnMes (y m : Int) : Int :=
  if m = 1 then 31 else if m = 2 then (if esBisiesto y then 29 else 28)
  else if m = 3 then 31 else if m = 4 then 30 else if m = 5 then 31
  else if m = 6 then 30 else if m = 7 then 31 else if m = 8 then 31
  else if m = 9 then 30 else if m = 10 then 31 else if m = 11 then 30
  else 31

/-- Validity condition of `datetime(anio, mes, dia)` (Python's
`MINYEAR = 1`, `MAXYEAR = 9999`). -/
def datetimeValida (y m d : Int) : Bool :=
  1 ≤ y ∧ y ≤ 9999 ∧ 1 ≤ m ∧ m ≤ 12 ∧ 1 ≤ d ∧ d ≤ diasEnMes y m

/-- Civil day number of a Gregorian date, 1970-01-01 = 0. -/
def days_from_civil (y m d : Int) : Int :=
  let y' := if m ≤ 2 then y - 1 else y
  let era := Int.fdiv y' 400
  let yoe := y' - era * 400
  let mp := if 2 < m then m - 3 else m + 9
  let doy := Int.fdiv (153 * mp + 2) 5 + d - 1
  let doe := yoe * 365 + Int.fdiv yoe 4 - Int.fdiv yoe 100 + doy
  era * 146097 + doe - 719468

/-- `calcular_antiguedad_dias` of the source.  `datetime.now()` becomes the
explicit parameter `nowDays` (the civil day number of the observation
instant); as noted above, `(datetime.now() - datetime(y, m, d)).days` is
exactly the difference of civil day numbers.  Any parsing or validation
failure inside the `try` is caught and yields `0`. -/
def calcular_antiguedad_dias (nowDays : Int) (fecha_str : List Char) : Int :=
  if fecha_str.contains '/' then
    match (splitSlash fecha_str).map pyInt with
    | [some dia, some mes, some anio] =>
      if datetimeValida anio mes dia then nowDays - days_from_civil anio mes dia
      else 0
    | _ => 0
  else 0

/-- `generar_id_desde_url` of the source.  Python's `str.split` always
returns a non-empty list (`splitSlash_ne_nil`), so the source's
`hashlib.md5` fallback branch (taken only when `partes` is empty) is
unreachable and does not appear here. -/
def generar_id_desde_url (url : List Char) : List Char :=
  ((splitSlash (rstripSlash url)).getLastD []).take 80

/-- `parsear_fecha_desde_url` of the source. -/
def parsear_fecha_desde_url (url : List Char) : List Char × List Char :=
  match reSearch reFechaUrlPat url with
  | some caps =>
    match capGet caps 1, capGet caps 2, capGet caps 3, capGet caps 4, capGet caps 5 with
    | some anio, some mes, some dia, some hora, some minuto =>
      (dia ++ ("/".toList) ++ mes ++ ("/".toList) ++ anio,
       hora ++ (":".toList) ++ minuto)
    | _, _, _, _, _ => ([], [])
  | none => ([], [])

/-- `parsear_fecha_texto` of the source (defined there, never called by the
rest of the program — see the claims about the declaration date). -/
def parsear_fecha_texto (texto : List Char) : List Char × List Char :=
  let hora_str :=
    match reSearch reHoraPat texto with
    | some caps =>
      match capGet caps 1, capGet caps 2 with
      | some g1, some g2 => fmt02 (intOfGroup g1).toNat ++ (":".toList) ++ g2
      | _, _ => []
    | none => []
  let fecha_str :=
    match reSearch reFechaTextoPat (lowerL texto) with
    | some caps =>
      match capGet caps 1, capGet caps 2, capGet caps 3 with
      | some g1, some g2, some g3 =>
        fmt02 (intOfGroup g1).toNat ++ ("/".toList) ++ fmt02 (mesesGet g2) ++
          ("/".toList) ++ fmtNat (intOfGroup g3).toNat
      | _, _, _ => []
    | none => []
  (fecha_str, hora_str)

/-- `extraer_rango_fechas` of the source.  `datetime.now().year` becomes the
parameter `nowYear`. -/
def extraer_rango_fechas (nowYear : Nat) (texto : List Char) : List Char × List Char :=
  let t := lowerL texto
  let p :=
    match reSearch rangoPat1 t with
    | some caps =>
      match capGet caps 1, capGet caps 2, capGet caps 3 with
      | some g1, some g2, some g3 =>
        let dia_inicio := (intOfGroup g1).toNat
        let dia_fin := (intOfGroup g2).toNat
        let mes := mesesGet g3
        let anio := match capGet caps 4 with
          | some g4 => (intOfGroup g4).toNat
          | none => nowYear
        (fmt02 dia_inicio ++ ("/".toList) ++ fmt02 mes ++ ("/".toList) ++ fmtNat anio,
         fmt02 dia_fin ++ ("/".toList) ++ fmt02 mes ++ ("/".toList) ++ fmtNat anio)
      | _, _, _ => ([], [])
    | none => ([], [])
  if p.1 = [] then
    match reSearch rangoPat2 t with
    | some caps =>
      match capGet caps 1, capGet caps 2 with
      | some g1, some g2 =>
        let dia := (intOfGroup g1).toNat
        let mes := mesesGet g2
        let anio := match capGet caps 3 with
          | some g3 => (intOfGroup g3).toNat
          | none => nowYear
        (fmt02 dia ++ ("/".toList) ++ fmt02 mes ++ ("/".toList) ++ fmtNat anio, p.2)
      | _, _ => p
    | none => p
  else p

/-!
## Field extractors (`SenapredScraper._extraer_*`, `_detectar_tipo`)

The leading underscore of the Python method names is dropped.
-/

/-- `_detectar_tipo`. -/
def detectar_tipo (texto : List Char) : Option (List Char) :=
  let t := lowerL texto
  if occursL ("alerta roja".toList) t then some ("roja".toList)
  else if occursL ("alerta amarilla".toList) t then some ("amarilla".toList)
  else if occursL ("alerta temprana".toList) t || occursL ("preventiva".toList) t then
    some ("temprana".toList)
  else none

/-- `_extraer_nivel_alerta`. -/
def extraer_nivel_alerta (texto : List Char) : List Char :=
  let t := lowerL texto
  if occursL ("alerta roja".toList) t then "Alerta Roja".toList
  else if occursL ("alerta amarilla".toList) t then "Alerta Amarilla".toList
  else if occursL ("alerta temprana preventiva".toList) t then
    "Alerta Temprana Preventiva".toList
  else "No especificado".toList

/-- `_extraer_region`. -/
def extraer_region (texto : List Char) : List Char :=
  let t := lowerL texto
  match REGIONES_CHILE.find? (fun r => occursL (lowerL r) t) with
  | some r => r
  | none =>
    match reSearch1 regionPat texto with
    | some g => pyStrip g
    | none => "No especificada".toList

/-- `_extraer_provincias`. -/
def extraer_provincias (texto : List Char) : List Char :=
  match reSearch1 provinciasPat texto with
  | some g => (pyStrip g).take 200
  | none => []

/-- `_extraer_comunas`. -/
def extraer_comunas (texto : List Char) : List Char :=
  match reSearch1 comunasPat texto with
  | some g => (pyStrip g).take 200
  | none => []

def zonas_posibles : List (List Char) :=
  [ ("cordillera de la costa".toList), ("cordillera costa".toList),
    ("litoral".toList), ("valle".toList), ("valles".toList),
    ("precordillera".toList), ("costa".toList), ("interior".toList),
    ("valles interiores".toList), ("sectores costeros".toList),
    ("zona cordillerana".toList) ]

/-- `_extraer_zonas`.  The source joins `set(zonas)`, whose iteration order
CPython leaves unspecified; this embedding fixes the scan (insertion) order.
The matched titles are pairwise distinct, so the joined elements coincide. -/
def extraer_zonas (texto : List Char) : List Char :=
  let t := lowerL texto
  let zonas := (zonas_posibles.filter (fun z => occursL z t)).map pyTitle
  joinComma zonas

def amenazas_tabla : List (List Char × List Char) :=
  [ (("calor extremo".toList), ("Calor Extremo".toList)),
    (("calor intenso".toList), ("Calor Intenso".toList)),
    (("altas temperaturas".toList), ("Altas Temperaturas".toList)),
    (("incendio forestal".toList), ("Incendio Forestal".toList)),
    (("incendios forestales".toList), ("Incendios Forestales".toList)),
    (("tsunami".toList), ("Tsunami".toList)),
    (("sismo".toList), ("Sismo".toList)),
    (("terremoto".toList), ("Terremoto".toList)),
    (("marejadas".toList), ("Marejadas".toList)),
    (("temporal".toList), ("Temporal".toList)),
    (("lluvias intensas".toList), ("Lluvias Intensas".toList)),
    (("vientos fuertes".toList), ("Vientos Fuertes".toList)),
    (("nevazón".toList), ("Nevazón".toList)),
    (("actividad volcánica".toList), ("Actividad Volcánica".toList)),
    (("aluvión".toList), ("Aluvión".toList)),
    (("deslizamiento".toList), ("Deslizamiento".toList)) ]

/-- `_extraer_amenaza`: first matching key of the (insertion-ordered) table wins. -/
def extraer_amenaza (texto : List Char) : List Char :=
  let t := lowerL texto
  match amenazas_tabla.find? (fun p => occursL p.1 t) with
  | some p => p.2
  | none => "Emergencia".toList

/-- `_extraer_causa_detallada`. -/
def extraer_causa_detallada (texto : List Char) : List Char :=
  match reSearch1 causaPat texto with
  | some g => (pyStrip g).take 300
  | none => extraer_amenaza texto

/-- `_extraer_descripcion`. -/
def extraer_descripcion (texto : List Char) : List Char :=
  let parrafos :=
    ([reSearch1 descPat1 texto, reSearch1 descPat2 texto,
      reSearch1 descPat3 texto]).filterMap id
  if parrafos ≠ [] then (joinSpace parrafos).take 800
  else if 100 < texto.length then (texto.drop 100).take 500
  else texto.take 500

/-- `_extraer_fecha_inicio`. -/
def extraer_fecha_inicio (nowYear : Nat) (texto : List Char) : List Char :=
  let p := extraer_rango_fechas nowYear texto
  if p.1 ≠ [] then p.1
  else
    match reSearch partirPat (lowerL texto) with
    | some caps =>
      match capGet caps 1, capGet caps 2 with
      | some g1, some g2 =>
        fmt02 (intOfGroup g1).toNat ++ ("/".toList) ++ fmt02 (mesesGet g2) ++
          ("/".toList) ++ fmtNat nowYear
      | _, _ => []
    | none => []

/-- `_extraer_fecha_fin`. -/
def extraer_fecha_fin (nowYear : Nat) (texto : List Char) : List Char :=
  let p := extraer_rango_fechas nowYear texto
  if p.2 ≠ [] then p.2
  else
    match reSearch hastaPat (lowerL texto) with
    | some caps =>
      match capGet caps 1, capGet caps 2 with
      | some g1, some g2 =>
        fmt02 (intOfGroup g1).toNat ++ ("/".toList) ++ fmt02 (mesesGet g2) ++
          ("/".toList) ++ fmtNat nowYear
      | _, _ => []
    | none => []

/-- `_extraer_vigencia`. -/
def extraer_vigencia (texto : List Char) : List Char :=
  let t := lowerL texto
  if occursL ("cancelada".toList) t || occursL ("se cancela".toList) t then
    "Cancelada".toList
  else if occursL ("vigente".toList) t then
    match reSearch1 vigentePat t with
    | some g => ("Vigente ".toList) ++ g
    | none => "Vigente".toList
  else "Activa".toList

/-- `_extraer_aviso_dmc`: three patterns tried in order. -/
def extraer_aviso_dmc (texto : List Char) : List Char :=
  match reSearch1 avisoPat1 texto with
  | some g => g
  | none =>
    match reSearch1 avisoPat2 texto with
    | some g => g
    | none =>
      match reSearch1 avisoPat3 texto with
      | some g => g
      | none => []

/-- Second `findall` pass of `_extraer_temperaturas`: append `m + "°C"`
unless already present or `m` occurs inside an existing entry. -/
def tempsSegundaPasada (temps : List (List Char)) : List (List Char) → List (List Char)
  | [] => temps
  | m :: rest =>
    let t := m ++ ("°C".toList)
    if ¬ temps.contains t ∧ ¬ temps.any (fun x => occursL m x) then
      tempsSegundaPasada (temps ++ [t]) rest
    else tempsSegundaPasada temps rest

/-- `_extraer_temperaturas`. -/
def extraer_temperaturas (texto : List Char) : List Char :=
  let temps :=
    (reFind tempsPat1 texto).filterMap
      (fun caps =>
        match capGet caps 1, capGet caps 2 with
        | some a, some b => some (a ++ ("-".toList) ++ b ++ ("°C".toList))
        | _, _ => none)
  let singles := (reFind tempsPat2 texto).filterMap (fun caps => capGet caps 1)
  let temps := tempsSegundaPasada temps singles
  let temps :=
    match reSearch1 tempsPat3 texto with
    | some g => temps ++ [("Máx ".toList) ++ g ++ ("°C".toList)]
    | none => temps
  joinComma (temps.take 5)

def condiciones_kw : List (List Char) :=
  [ ("evento de altas temperaturas".toList), ("ola de calor".toList),
    ("calor extremo".toList), ("calor intenso".toList), ("dorsal en altura".toList),
    ("condición de estabilidad".toList), ("aire caliente".toList),
    ("viento norte".toList), ("baja humedad".toList) ]

/-- `_extraer_condiciones`. -/
def extraer_condiciones (texto : List Char) : List Char :=
  let t := lowerL texto
  joinComma ((condiciones_kw.filter (fun kw => occursL kw t)).map pyTitle)

def recursos_patrones : List (Re × List Char) :=
  [ (rcat [rgrp 1 (rplus rdigit), rstar rspace, rlit "brigada"], ("brigadas".toList)),
    (rcat [rgrp 1 (rplus rdigit), rstar rspace, rlit "helic", rcls "oó", rlit "ptero"],
      ("helicópteros".toList)),
    (rcat [rgrp 1 (rplus rdigit), rstar rspace, rlit "avi", rcls "oó", rch 'n'],
      ("aviones".toList)),
    (rcat [rgrp 1 (rplus rdigit), rstar rspace, rlit "carro", ropt (rch 's'),
           rplus rspace, rlit "bomba"], ("carros bomba".toList)),
    (rcat [rgrp 1 (rplus rdigit), rstar rspace, rlit "cami", rcls "oó", rch 'n'],
      ("camiones".toList)),
    (rcat [rgrp 1 (rplus rdigit), rstar rspace, rlit "bombero"], ("bomberos".toList)),
    (rcat [rgrp 1 (rplus rdigit), rstar rspace,
           Re.alt (rlit "efectivo") (rlit "personal")], ("efectivos".toList)),
    (rcat [rgrp 1 (rplus rdigit), rstar rspace, rlit "voluntario"],
      ("voluntarios".toList)) ]

/-- `_extraer_recursos`. -/
def extraer_recursos (texto : List Char) : List Char :=
  let t := lowerL texto
  joinComma (recursos_patrones.filterMap
    (fun pr => (reSearch1 pr.1 t).map (fun g => g ++ (" ".toList) ++ pr.2)))

def acciones_kw : List (List Char) :=
  [ ("se movilizarán todos los recursos".toList),
    ("se alistarán escalonadamente".toList), ("mesa técnica".toList),
    ("coordinación con".toList), ("monitoreo permanente".toList),
    ("reforzamiento de vigilancia".toList) ]

/-- `_extraer_acciones`. -/
def extraer_acciones (texto : List Char) : List Char :=
  let t := lowerL texto
  joinSemi ((acciones_kw.filter (fun kw => occursL kw t)).map pyTitle)

def recomendaciones_kw : List (List Char) :=
  [ ("hidratación".toList), ("beber líquido".toList),
    ("evitar exposición al sol".toList), ("población vulnerable".toList),
    ("limitar exposición".toList), ("mantenerse informado".toList),
    ("evitar actividades al aire libre".toList), ("protegerse del calor".toList) ]

/-- `_extraer_recomendaciones`. -/
def extraer_recomendaciones (texto : List Char) : List Char :=
  match reSearch1 recomPat texto with
  | some g => (pyStrip g).take 500
  | none =>
    let t := lowerL texto
    joinSemi ((recomendaciones_kw.filter (fun kw => occursL kw t)).map pyTitle)

/-- `_extraer_superficie`. -/
def extraer_superficie (texto : List Char) : List Char :=
  match reSearch1 superficiePat texto with
  | some g => g ++ (" ha".toList)
  | none => []

/-- `_extraer_alertas_relacionadas`. -/
def extraer_alertas_relacionadas (texto : List Char) : List Char :=
  let t := lowerL texto
  let xs :=
    (if occursL ("alerta temprana preventiva nacional".toList) t then
       [("Alerta Temprana Preventiva Nacional".toList)] else []) ++
    (if occursL ("alerta temprana preventiva regional".toList) t then
       [("Alerta Temprana Preventiva Regional".toList)] else []) ++
    (if occursL ("amenaza de incendios forestales".toList) t then
       [("Amenaza Incendios Forestales".toList)] else [])
  joinComma xs

/-- `_extraer_fuente`. -/
def extraer_fuente (texto : List Char) : List Char :=
  let t := lowerL texto
  let xs :=
    (if occursL ("dirección meteorológica".toList) t || occursL ("dmc".toList) t then
       [("DMC".toList)] else []) ++
    (if occursL ("conaf".toList) t then [("CONAF".toList)] else []) ++
    (if occursL ("ministerio de salud".toList) t then [("MINSAL".toList)] else []) ++
    (if occursL ("delegación presidencial".toList) t then
       [("Delegación Presidencial".toList)] else [])
  if xs = [] then "SENAPRED".toList else joinComma xs

/-!
## Full extraction (`SenapredScraper._extraer_detalle_completo`)

The observation instant `datetime.now()` becomes the explicit parameter
`now : Ahora` (civil day number, year, and the two `strftime` renderings the
source uses).  The MD5 digest is a cryptographic hash with no arithmetic
content relevant to any claim; it is passed in as the uninterpreted function
parameter `md5hex` (Python: `hashlib.md5(x.encode()).hexdigest()`).
Network retrieval, the debug-HTML dump, and the `try`-`except` around the
Selenium calls are I/O and do not appear: this is the pure function from the
page text and locator to the record.
-/

structure Ahora where
  days : Int
  year : Nat
  fecha : List Char
  fechaHora : List Char
  deriving Repr

/-- `_extraer_detalle_completo`, pure part: `None` exactly when
`_detectar_tipo` recognises no category. -/
def extraer_detalle_completo (now : Ahora) (md5hex : List Char → List Char)
    (url texto : List Char) : Option Alerta :=
  let p := parsear_fecha_desde_url url
  let fecha_url := p.1
  let hora_url := p.2
  match detectar_tipo texto with
  | none => none
  | some tipo =>
    some
      { id := generar_id_desde_url url
        url := url
        tipo := tipo
        nivel_alerta := extraer_nivel_alerta texto
        region := extraer_region texto
        provincias := extraer_provincias texto
        comunas := extraer_comunas texto
        zonas_afectadas := extraer_zonas texto
        amenaza := extraer_amenaza texto
        causa := extraer_causa_detallada texto
        descripcion := extraer_descripcion texto
        fecha_declaracion := pyOr fecha_url now.fecha
        hora_declaracion := pyOr hora_url ("--:--".toList)
        fecha_inicio_evento := extraer_fecha_inicio now.year texto
        fecha_fin_evento := extraer_fecha_fin now.year texto
        vigencia := extraer_vigencia texto
        aviso_meteorologico := extraer_aviso_dmc texto
        temperaturas_esperadas := extraer_temperaturas texto
        condiciones := extraer_condiciones texto
        recursos_desplegados := extraer_recursos texto
        acciones_realizadas := extraer_acciones texto
        recomendaciones := extraer_recomendaciones texto
        superficie_afectada := extraer_superficie texto
        alertas_relacionadas := extraer_alertas_relacionadas texto
        fuente_informacion := extraer_fuente texto
        fecha_deteccion := now.fechaHora
        estado_monitor := "activa".toList
        contenido_hash := (md5hex (texto.take 1000)).take 16
        dias_antiguedad :=
          if fecha_url ≠ [] then calcular_antiguedad_dias now.days fecha_url else 0 }

/-!
## The monitor state and `MonitorSenapred._detectar_cambios`

`self.alertas` is a CPython `dict` keyed by alert id: insertion-ordered,
assignment to an existing key updates in place, new keys append.  We embed it
as an association list with those exact semantics (`dictSet`, `dictLookup`);
well-formedness (no duplicate keys) is the `dict` invariant and appears as a
`Nodup` hypothesis where needed.  `self.cambios` is the append-only change
log.  `datetime.now().strftime(...)` at the start of `_detectar_cambios`
becomes the parameter `ahora`.

The Python method appends events to `self.cambios` while iterating; the
embedding returns the freshly generated events and appends them once, which
yields the same final list in the same order.
-/

abbrev Dict := List (List Char × Alerta)

def dictLookup (m : Dict) (k : List Char) : Option Alerta :=
  match m with
  | [] => none
  | (k', v) :: rest => if k' = k then some v else dictLookup rest k

def dictSet (m : Dict) (k : List Char) (v : Alerta) : Dict :=
  match m with
  | [] => [(k, v)]
  | (k', v') :: rest =>
    if k' = k then (k', v) :: rest else (k', v') :: dictSet rest k v

structure MonitorState where
  alertas : Dict
  cambios : List CambioEstado
  deriving DecidableEq, Repr

/-- Event summary `f"{nivel_alerta}: {region} - {amenaza}"` for "nueva". -/
def descNueva (a : Alerta) : List Char :=
  a.nivel_alerta ++ (": ".toList) ++ a.region ++ (" - ".toList) ++ a.amenaza

/-- Event summary `f"{nivel_alerta}: {region}"` for "actualizada"/"cancelada". -/
def descNivelRegion (a : Alerta) : List Char :=
  a.nivel_alerta ++ (": ".toList) ++ a.region

structure FaseBatchRes where
  store : Dict
  eventos : List CambioEstado
  nuevas : List Alerta
  actualizadas : List Alerta
  deriving Repr

/-- First loop of `_detectar_cambios`: walk the extracted batch in order;
an id absent from the store is inserted with a "nueva" event, a present id
with a differing `contenido_hash` replaces the stored record with an
"actualizada" event, otherwise nothing happens. -/
def fase_batch (ahora : List Char) (store : Dict) : List Alerta → FaseBatchRes
  | [] => { store := store, eventos := [], nuevas := [], actualizadas := [] }
  | a :: rest =>
    match dictLookup store a.id with
    | none =>
      let r := fase_batch ahora (dictSet store a.id a) rest
      { r with eventos := ⟨a.id, ("nueva".toList), ahora, descNueva a⟩ :: r.eventos,
               nuevas := a :: r.nuevas }
    | some prev =>
      if a.contenido_hash ≠ prev.contenido_hash then
        let r := fase_batch ahora (dictSet store a.id a) rest
        { r with
            eventos := ⟨a.id, ("actualizada".toList), ahora, descNivelRegion a⟩ :: r.eventos,
            actualizadas := a :: r.actualizadas }
      else fase_batch ahora store rest

structure FaseCancelRes where
  store : Dict
  eventos : List CambioEstado
  canceladas : List Alerta
  deriving Repr

def marcarCancelada (v : Alerta) : Alerta :=
  { v with estado_monitor := "cancelada".toList }

/-- Second loop of `_detectar_cambios`: every stored id absent from the
current batch whose `estado_monitor` is not yet "cancelada" is flipped to
"cancelada" (the record stays in the store) with a "cancelada" event. -/
def fase_cancel (ids_actuales : List (List Char)) (ahora : List Char) :
    Dict → FaseCancelRes
  | [] => { store := [], eventos := [], canceladas := [] }
  | (k, v) :: rest =>
    let r := fase_cancel ids_actuales ahora rest
    if k ∉ ids_actuales ∧ v.estado_monitor ≠ ("cancelada".toList) then
      { store := (k, marcarCancelada v) :: r.store,
        eventos := ⟨k, ("cancelada".toList), ahora, descNivelRegion v⟩ :: r.eventos,
        canceladas := marcarCancelada v :: r.canceladas }
    else
      { store := (k, v) :: r.store, eventos := r.eventos, canceladas := r.canceladas }

structure DetectarRes where
  state : MonitorState
  nuevas : List Alerta
  actualizadas : List Alerta
  canceladas : List Alerta
  deriving Repr

/-- `MonitorSenapred._detectar_cambios`. -/
def detectar_cambios (st : MonitorState) (batch : List Alerta) (ahora : List Char) :
    DetectarRes :=
  let ids_actuales := batch.map Alerta.id
  let r1 := fase_batch ahora st.alertas batch
  let r2 := fase_cancel ids_actuales ahora r1.store
  { state := { alertas := r2.store, cambios := st.cambios ++ r1.eventos ++ r2.eventos },
    nuevas := r1.nuevas, actualizadas := r1.actualizadas, canceladas := r2.canceladas }

/-- The change events a reconciliation run appends to the log. -/
def cambiosEmitidos (st : MonitorState) (batch : List Alerta) (ahora : List Char) :
    List CambioEstado :=
  (detectar_cambios st batch ahora).state.cambios.drop st.cambios.length

/-- The events of a run that concern one identity. -/
def eventosDe (id : List Char) (evs : List CambioEstado) : List CambioEstado :=
  evs.filter (fun e => e.alerta_id == id)

/-!
## Persisted-state loading (`MonitorSenapred._cargar_estado`)

The persisted resource is modelled by `EstadoArchivo`: the file may be
missing (`ausente`), unreadable or not valid JSON (`ilegible`, the
`json.load` call raising inside the `try`), or a JSON object with `alertas`
and `cambios` arrays.  Each array entry is `some v` when the
`Alerta(**a)` / `CambioEstado(**c)` constructor call succeeds and `none`
when it raises (missing or extra keys).  The single `try`-`except` of the
source catches the first raise, keeping everything inserted before it.
-/

inductive EstadoArchivo where
  | ausente : EstadoArchivo
  | ilegible : EstadoArchivo
  | datos (alertas : List (Option Alerta)) (cambios : List (Option CambioEstado)) :
      EstadoArchivo

/-- Values converted before the first failing entry, plus whether a failure
aborted the loop. -/
def cargarLista {α : Type} : List (Option α) → List α × Bool
  | [] => ([], false)
  | some a :: rest =>
    let r := cargarLista rest
    (a :: r.1, r.2)
  | none :: _ => ([], true)

/-- `_cargar_estado`: the store dictionary and change list after the load. -/
def cargar_estado (f : EstadoArchivo) : MonitorState :=
  match f with
  | .ausente => { alertas := [], cambios := [] }
  | .ilegible => { alertas := [], cambios := [] }
  | .datos as cs =>
    let ra := cargarLista as
    let dict := ra.1.foldl (fun d a => dictSet d a.id a) []
    if ra.2 then { alertas := dict, cambios := [] }
    else { alertas := dict, cambios := (cargarLista cs).1 }

/-!
## Dictionary lemmas
-/

def dictKeys (m : Dict) : List (List Char) := m.map Prod.fst

theorem dictKeys_nil : dictKeys [] = [] := rfl

theorem dictKeys_cons (k : List Char) (v : Alerta) (rest : Dict) :
    dictKeys ((k, v) :: rest) = k :: dictKeys rest := rfl

theorem dictLookup_set_self (m : Dict) (k : List Char) (v : Alerta) :
    dictLookup (dictSet m k v) k = some v := by
  induction m with
  | nil => simp [dictSet, dictLookup]
  | cons p rest ih =>
    obtain ⟨k', v'⟩ := p
    by_cases h : k' = k <;> simp [dictSet, dictLookup, h, ih]

theorem dictLookup_set_ne (m : Dict) (k x : List Char) (v : Alerta) (h : x ≠ k) :
    dictLookup (dictSet m k v) x = dictLookup m x := by
  induction m with
  | nil => simp [dictSet, dictLookup, Ne.symm h]
  | cons p rest ih =>
    obtain ⟨k', v'⟩ := p
    by_cases h1 : k' = k
    · subst h1
      simp [dictSet, dictLookup, Ne.symm h, h]
    · simp [dictSet, dictLookup, h1, ih]

theorem dictKeys_set_mem (m : Dict) (k : List Char) (v : Alerta)
    (h : k ∈ dictKeys m) : dictKeys (dictSet m k v) = dictKeys m := by
  induction m with
  | nil => simp [dictKeys] at h
  | cons p rest ih =>
    obtain ⟨k', v'⟩ := p
    by_cases h1 : k' = k
    · simp [dictSet, dictKeys_cons, h1]
    · have h2 : k ∈ dictKeys rest := by
        rcases List.mem_cons.mp (dictKeys_cons k' v' rest ▸ h) with h3 | h3
        · exact absurd h3.symm h1
        · exact h3
      simp only [dictSet, if_neg h1, dictKeys_cons]
      rw [ih h2]

theorem dictKeys_set_new (m : Dict) (k : List Char) (v : Alerta)
    (h : k ∉ dictKeys m) : dictKeys (dictSet m k v) = dictKeys m ++ [k] := by
  induction m with
  | nil => simp [dictSet, dictKeys]
  | cons p rest ih =>
    obtain ⟨k', v'⟩ := p
    have h1 : k' ≠ k := by
      intro he
      exact h (by simp [dictKeys_cons, he])
    have h2 : k ∉ dictKeys rest := by
      intro hm
      exact h (by simp [dictKeys_cons, hm])
    simp only [dictSet, if_neg h1, dictKeys_cons, List.cons_append]
    rw [ih h2]

theorem dictKeys_set_nodup (m : Dict) (k : List Char) (v : Alerta)
    (h : (dictKeys m).Nodup) : (dictKeys (dictSet m k v)).Nodup := by
  by_cases hk : k ∈ dictKeys m
  · rw [dictKeys_set_mem m k v hk]; exact h
  · rw [dictKeys_set_new m k v hk]
    simp [List.nodup_append, h, hk]

theorem dictLookup_mem (m : Dict) (k : List Char) (v : Alerta)
    (h : dictLookup m k = some v) : (k, v) ∈ m := by
  induction m with
  | nil => simp [dictLookup] at h
  | cons p rest ih =>
    obtain ⟨k', v'⟩ := p
    by_cases h1 : k' = k
    · subst h1
      simp [dictLookup] at h
      simp [h]
    · simp [dictLookup, h1] at h
      simp [ih h]

theorem mem_dictLookup (m : Dict) (k : List Char) (v : Alerta)
    (hnd : (dictKeys m).Nodup) (h : (k, v) ∈ m) : dictLookup m k = some v := by
  induction m with
  | nil => simp at h
  | cons p rest ih =>
    obtain ⟨k', v'⟩ := p
    simp only [dictKeys, List.map_cons, List.nodup_cons] at hnd
    rcases List.mem_cons.mp h with h | h
    · obtain ⟨h1, h2⟩ := Prod.mk.injEq .. ▸ h
      simp [dictLookup, h1.symm, h2]
    · have hk : k' ≠ k := by
        intro he
        subst he
        exact hnd.1 (by simpa [dictKeys] using List.mem_map_of_mem Prod.fst h)
      simp [dictLookup, hk, ih hnd.2 h]

theorem dictLookup_eq_none_iff (m : Dict) (k : List Char) :
    dictLookup m k = none ↔ k ∉ dictKeys m := by
  induction m with
  | nil => simp [dictLookup, dictKeys]
  | cons p rest ih =>
    obtain ⟨k', v'⟩ := p
    by_cases h1 : k' = k
    · subst h1
      simp [dictLookup, dictKeys_cons]
    · simp [dictLookup, dictKeys_cons, h1, ih, Ne.symm h1]

theorem dictLookup_isSome_of_mem (m : Dict) (k : List Char)
    (h : k ∈ dictKeys m) : ∃ v, dictLookup m k = some v := by
  rcases hv : dictLookup m k with _ | v
  · exact absurd ((dictLookup_eq_none_iff m k).mp hv) (by simpa using h)
  · exact ⟨v, rfl⟩

/-!
## Reconciliation lemmas: the batch phase
-/

theorem eventosDe_cons (id : List Char) (e : CambioEstado) (evs : List CambioEstado) :
    eventosDe id (e :: evs) =
      if e.alerta_id = id then e :: eventosDe id evs else eventosDe id evs := by
  by_cases h : e.alerta_id = id <;> simp [eventosDe, List.filter_cons, h]

theorem eventosDe_append (id : List Char) (l1 l2 : List CambioEstado) :
    eventosDe id (l1 ++ l2) = eventosDe id l1 ++ eventosDe id l2 := by
  simp [eventosDe, List.filter_append]

theorem eventosDe_eq_nil (id : List Char) (evs : List CambioEstado)
    (L : List (List Char)) (h : ∀ e ∈ evs, e.alerta_id ∈ L) (hk : id ∉ L) :
    eventosDe id evs = [] := by
  apply List.filter_eq_nil_iff.mpr
  intro e he
  simp only [beq_iff_eq]
  intro hid
  exact hk (hid ▸ h e he)

theorem fase_batch_cons_none (ahora : List Char) (store : Dict) (a : Alerta)
    (rest : List Alerta) (hl : dictLookup store a.id = none) :
    fase_batch ahora store (a :: rest) =
      { store := (fase_batch ahora (dictSet store a.id a) rest).store,
        eventos := ⟨a.id, ("nueva".toList), ahora, descNueva a⟩ ::
          (fase_batch ahora (dictSet store a.id a) rest).eventos,
        nuevas := a :: (fase_batch ahora (dictSet store a.id a) rest).nuevas,
        actualizadas := (fase_batch ahora (dictSet store a.id a) rest).actualizadas } := by
  simp [fase_batch, hl]

theorem fase_batch_cons_upd (ahora : List Char) (store : Dict) (a prev : Alerta)
    (rest : List Alerta) (hl : dictLookup store a.id = some prev)
    (hh : a.contenido_hash ≠ prev.contenido_hash) :
    fase_batch ahora store (a :: rest) =
      { store := (fase_batch ahora (dictSet store a.id a) rest).store,
        eventos := ⟨a.id, ("actualizada".toList), ahora, descNivelRegion a⟩ ::
          (fase_batch ahora (dictSet store a.id a) rest).eventos,
        nuevas := (fase_batch ahora (dictSet store a.id a) rest).nuevas,
        actualizadas := a :: (fase_batch ahora (dictSet store a.id a) rest).actualizadas } := by
  simp [fase_batch, hl, hh]

theorem fase_batch_cons_igual (ahora : List Char) (store : Dict) (a prev : Alerta)
    (rest : List Alerta) (hl : dictLookup store a.id = some prev)
    (hh : a.contenido_hash = prev.contenido_hash) :
    fase_batch ahora store (a :: rest) = fase_batch ahora store rest := by
  simp [fase_batch, hl, hh]

theorem fase_batch_eventos_ids (ahora : List Char) (batch : List Alerta) :
    ∀ (store : Dict), ∀ e ∈ (fase_batch ahora store batch).eventos,
      e.alerta_id ∈ batch.map Alerta.id := by
  induction batch with
  | nil =>
    intro store e he
    simp [fase_batch] at he
  | cons a rest ih =>
    intro store e he
    rcases hl : dictLookup store a.id with _ | prev
    · rw [fase_batch_cons_none ahora store a rest hl] at he
      rcases List.mem_cons.mp he with h | h
      · simp [h]
      · simpa using Or.inr (ih (dictSet store a.id a) e h)
    · by_cases hh : a.contenido_hash = prev.contenido_hash
      · rw [fase_batch_cons_igual ahora store a prev rest hl hh] at he
        simpa using Or.inr (ih store e he)
      · rw [fase_batch_cons_upd ahora store a prev rest hl hh] at he
        rcases List.mem_cons.mp he with h | h
        · simp [h]
        · simpa using Or.inr (ih (dictSet store a.id a) e h)

theorem fase_batch_frame (ahora : List Char) (batch : List Alerta) :
    ∀ (store : Dict) (x : List Char), x ∉ batch.map Alerta.id →
      dictLookup (fase_batch ahora store batch).store x = dictLookup store x := by
  induction batch with
  | nil =>
    intro store x _
    simp [fase_batch]
  | cons a rest ih =>
    intro store x hx
    have hxa : x ≠ a.id := by
      intro he
      exact hx (by simp [he])
    have hxr : x ∉ rest.map Alerta.id := by
      intro hm
      exact hx (by simp [hm])
    rcases hl : dictLookup store a.id with _ | prev
    · rw [fase_batch_cons_none ahora store a rest hl]
      rw [ih (dictSet store a.id a) x hxr]
      exact dictLookup_set_ne store a.id x a hxa
    · by_cases hh : a.contenido_hash = prev.contenido_hash
      · rw [fase_batch_cons_igual ahora store a prev rest hl hh]
        exact ih store x hxr
      · rw [fase_batch_cons_upd ahora store a prev rest hl hh]
        rw [ih (dictSet store a.id a) x hxr]
        exact dictLookup_set_ne store a.id x a hxa

theorem fase_batch_keys_sub (ahora : List Char) (batch : List Alerta) :
    ∀ (store : Dict) (x : List Char),
      x ∈ dictKeys (fase_batch ahora store batch).store →
      x ∈ dictKeys store ∨ x ∈ batch.map Alerta.id := by
  induction batch with
  | nil =>
    intro store x hx
    simp [fase_batch] at hx
    exact Or.inl hx
  | cons a rest ih =>
    intro store x hx
    rcases hl : dictLookup store a.id with _ | prev
    · rw [fase_batch_cons_none ahora store a rest hl] at hx
      rcases ih (dictSet store a.id a) x hx with h | h
      · by_cases hxa : x = a.id
        · exact Or.inr (by simp [hxa])
        · rcases List.mem_append.mp (dictKeys_set_new store a.id a
            ((dictLookup_eq_none_iff store a.id).mp hl) ▸ h) with h2 | h2
          · exact Or.inl h2
          · exact Or.inr (by simp at h2; simp [h2])
      · exact Or.inr (by simp [h])
    · by_cases hh : a.contenido_hash = prev.contenido_hash
      · rw [fase_batch_cons_igual ahora store a prev rest hl hh] at hx
        rcases ih store x hx with h | h
        · exact Or.inl h
        · exact Or.inr (by simp [h])
      · rw [fase_batch_cons_upd ahora store a prev rest hl hh] at hx
        have hmem : a.id ∈ dictKeys store := by
          rcases dictLookup_isSome_of_mem store a.id with _
          by_contra hc
          rw [(dictLookup_eq_none_iff store a.id).mpr hc] at hl
          exact Option.noConfusion hl
        rcases ih (dictSet store a.id a) x hx with h | h
        · rw [dictKeys_set_mem store a.id a hmem] at h
          exact Or.inl h
        · exact Or.inr (by simp [h])

theorem fase_batch_nodup (ahora : List Char) (batch : List Alerta) :
    ∀ (store : Dict), (dictKeys store).Nodup →
      (dictKeys (fase_batch ahora store batch).store).Nodup := by
  induction batch with
  | nil =>
    intro store h
    simpa [fase_batch] using h
  | cons a rest ih =>
    intro store h
    rcases hl : dictLookup store a.id with _ | prev
    · rw [fase_batch_cons_none ahora store a rest hl]
      exact ih (dictSet store a.id a) (dictKeys_set_nodup store a.id a h)
    · by_cases hh : a.contenido_hash = prev.contenido_hash
      · rw [fase_batch_cons_igual ahora store a prev rest hl hh]
        exact ih store h
      · rw [fase_batch_cons_upd ahora store a prev rest hl hh]
        exact ih (dictSet store a.id a) (dictKeys_set_nodup store a.id a h)

theorem fase_batch_nueva (ahora : List Char) (batch : List Alerta) :
    ∀ (store : Dict) (a : Alerta), (batch.map Alerta.id).Nodup → a ∈ batch →
      dictLookup store a.id = none →
      eventosDe a.id (fase_batch ahora store batch).eventos =
        [⟨a.id, ("nueva".toList), ahora, descNueva a⟩] ∧
      dictLookup (fase_batch ahora store batch).store a.id = some a := by
  induction batch with
  | nil =>
    intro store a _ ha _
    simp at ha
  | cons b rest ih =>
    intro store a hnd ha h0
    have hnd' : (b.id :: rest.map Alerta.id).Nodup := by simpa using hnd
    have hbr : b.id ∉ rest.map Alerta.id := (List.nodup_cons.mp hnd').1
    have hndr : (rest.map Alerta.id).Nodup := (List.nodup_cons.mp hnd').2
    rcases List.mem_cons.mp ha with hab | har
    · subst hab
      rw [fase_batch_cons_none ahora store a rest h0]
      refine ⟨?_, ?_⟩
      · rw [eventosDe_cons, eventosDe_eq_nil a.id _ (rest.map Alerta.id)
          (fase_batch_eventos_ids ahora rest (dictSet store a.id a)) hbr]
        simp
      · rw [fase_batch_frame ahora rest (dictSet store a.id a) a.id hbr]
        exact dictLookup_set_self store a.id a
    · have hba : b.id ≠ a.id := by
        intro he
        exact hbr (he ▸ List.mem_map_of_mem Alerta.id har)
      rcases hl : dictLookup store b.id with _ | prev
      · rw [fase_batch_cons_none ahora store b rest hl]
        have h0' : dictLookup (dictSet store b.id b) a.id = none := by
          rw [dictLookup_set_ne store b.id a.id b (Ne.symm hba)]
          exact h0
        obtain ⟨he, hs⟩ := ih (dictSet store b.id b) a hndr har h0'
        refine ⟨?_, hs⟩
        rw [eventosDe_cons]
        simpa [hba] using he
      · by_cases hh : b.contenido_hash = prev.contenido_hash
        · rw [fase_batch_cons_igual ahora store b prev rest hl hh]
          exact ih store a hndr har h0
        · rw [fase_batch_cons_upd ahora store b prev rest hl hh]
          have h0' : dictLookup (dictSet store b.id b) a.id = none := by
            rw [dictLookup_set_ne store b.id a.id b (Ne.symm hba)]
            exact h0
          obtain ⟨he, hs⟩ := ih (dictSet store b.id b) a hndr har h0'
          refine ⟨?_, hs⟩
          rw [eventosDe_cons]
          simpa [hba] using he

theorem fase_batch_actualizada (ahora : List Char) (batch : List Alerta) :
    ∀ (store : Dict) (a prev : Alerta), (batch.map Alerta.id).Nodup → a ∈ batch →
      dictLookup store a.id = some prev → a.contenido_hash ≠ prev.contenido_hash →
      eventosDe a.id (fase_batch ahora store batch).eventos =
        [⟨a.id, ("actualizada".toList), ahora, descNivelRegion a⟩] ∧
      dictLookup (fase_batch ahora store batch).store a.id = some a := by
  induction batch with
  | nil =>
    intro store a prev _ ha _ _
    simp at ha
  | cons b rest ih =>
    intro store a prev hnd ha h0 hhash
    have hnd' : (b.id :: rest.map Alerta.id).Nodup := by simpa using hnd
    have hbr : b.id ∉ rest.map Alerta.id := (List.nodup_cons.mp hnd').1
    have hndr : (rest.map Alerta.id).Nodup := (List.nodup_cons.mp hnd').2
    rcases List.mem_cons.mp ha with hab | har
    · subst hab
      rw [fase_batch_cons_upd ahora store a prev rest h0 hhash]
      refine ⟨?_, ?_⟩
      · rw [eventosDe_cons, eventosDe_eq_nil a.id _ (rest.map Alerta.id)
          (fase_batch_eventos_ids ahora rest (dictSet store a.id a)) hbr]
        simp
      · rw [fase_batch_frame ahora rest (dictSet store a.id a) a.id hbr]
        exact dictLookup_set_self store a.id a
    · have hba : b.id ≠ a.id := by
        intro he
        exact hbr (he ▸ List.mem_map_of_mem Alerta.id har)
      rcases hl : dictLookup store b.id with _ | prevb
      · rw [fase_batch_cons_none ahora store b rest hl]
        have h0' : dictLookup (dictSet store b.id b) a.id = some prev := by
          rw [dictLookup_set_ne store b.id a.id b (Ne.symm hba)]
          exact h0
        obtain ⟨he, hs⟩ := ih (dictSet store b.id b) a prev hndr har h0' hhash
        refine ⟨?_, hs⟩
        rw [eventosDe_cons]
        simpa [hba] using he
      · by_cases hh : b.contenido_hash = prevb.contenido_hash
        · rw [fase_batch_cons_igual ahora store b prevb rest hl hh]
          exact ih store a prev hndr har h0 hhash
        · rw [fase_batch_cons_upd ahora store b prevb rest hl hh]
          have h0' : dictLookup (dictSet store b.id b) a.id = some prev := by
            rw [dictLookup_set_ne store b.id a.id b (Ne.symm hba)]
            exact h0
          obtain ⟨he, hs⟩ := ih (dictSet store b.id b) a prev hndr har h0' hhash
          refine ⟨?_, hs⟩
          rw [eventosDe_cons]
          simpa [hba] using he

theorem fase_batch_igual (ahora : List Char) (batch : List Alerta) :
    ∀ (store : Dict) (a prev : Alerta), (batch.map Alerta.id).Nodup → a ∈ batch →
      dictLookup store a.id = some prev → a.contenido_hash = prev.contenido_hash →
      eventosDe a.id (fase_batch ahora store batch).eventos = [] ∧
      dictLookup (fase_batch ahora store batch).store a.id = some prev := by
  induction batch with
  | nil =>
    intro store a prev _ ha _ _
    simp at ha
  | cons b rest ih =>
    intro store a prev hnd ha h0 hhash
    have hnd' : (b.id :: rest.map Alerta.id).Nodup := by simpa using hnd
    have hbr : b.id ∉ rest.map Alerta.id := (List.nodup_cons.mp hnd').1
    have hndr : (rest.map Alerta.id).Nodup := (List.nodup_cons.mp hnd').2
    rcases List.mem_cons.mp ha with hab | har
    · subst hab
      rw [fase_batch_cons_igual ahora store a prev rest h0 hhash]
      refine ⟨?_, ?_⟩
      · rw [eventosDe_eq_nil a.id _ (rest.map Alerta.id)
          (fase_batch_eventos_ids ahora rest store) hbr]
      · rw [fase_batch_frame ahora rest store a.id hbr]
        exact h0
    · have hba : b.id ≠ a.id := by
        intro he
        exact hbr (he ▸ List.mem_map_of_mem Alerta.id har)
      rcases hl : dictLookup store b.id with _ | prevb
      · rw [fase_batch_cons_none ahora store b rest hl]
        have h0' : dictLookup (dictSet store b.id b) a.id = some prev := by
          rw [dictLookup_set_ne store b.id a.id b (Ne.symm hba)]
          exact h0
        obtain ⟨he, hs⟩ := ih (dictSet store b.id b) a prev hndr har h0' hhash
        refine ⟨?_, hs⟩
        rw [eventosDe_cons]
        simpa [hba] using he
      · by_cases hh : b.contenido_hash = prevb.contenido_hash
        · rw [fase_batch_cons_igual ahora store b prevb rest hl hh]
          exact ih store a prev hndr har h0 hhash
        · rw [fase_batch_cons_upd ahora store b prevb rest hl hh]
          have h0' : dictLookup (dictSet store b.id b) a.id = some prev := by
            rw [dictLookup_set_ne store b.id a.id b (Ne.symm hba)]
            exact h0
          obtain ⟨he, hs⟩ := ih (dictSet store b.id b) a prev hndr har h0' hhash
          refine ⟨?_, hs⟩
          rw [eventosDe_cons]
          simpa [hba] using he

/-!
## Reconciliation lemmas: the retraction phase
-/

theorem fase_cancel_cons_do (ids : List (List Char)) (ahora k : List Char)
    (v : Alerta) (rest : Dict) (h1 : k ∉ ids)
    (h2 : v.estado_monitor ≠ ("cancelada".toList)) :
    fase_cancel ids ahora ((k, v) :: rest) =
      { store := (k, marcarCancelada v) :: (fase_cancel ids ahora rest).store,
        eventos := ⟨k, ("cancelada".toList), ahora, descNivelRegion v⟩ ::
          (fase_cancel ids ahora rest).eventos,
        canceladas := marcarCancelada v :: (fase_cancel ids ahora rest).canceladas } := by
  simp only [fase_cancel]
  split
  · rfl
  · next hcond => exact absurd ⟨h1, h2⟩ hcond

theorem fase_cancel_cons_skip (ids : List (List Char)) (ahora k : List Char)
    (v : Alerta) (rest : Dict)
    (h : k ∈ ids ∨ v.estado_monitor = ("cancelada".toList)) :
    fase_cancel ids ahora ((k, v) :: rest) =
      { store := (k, v) :: (fase_cancel ids ahora rest).store,
        eventos := (fase_cancel ids ahora rest).eventos,
        canceladas := (fase_cancel ids ahora rest).canceladas } := by
  simp only [fase_cancel]
  split
  · next hcond =>
      rcases h with h | h
      · exact absurd h hcond.1
      · exact absurd h hcond.2
  · rfl

theorem fase_cancel_eventos_ids (ids : List (List Char)) (ahora : List Char)
    (store : Dict) :
    ∀ e ∈ (fase_cancel ids ahora store).eventos, e.alerta_id ∈ dictKeys store := by
  induction store with
  | nil =>
    intro e he
    simp [fase_cancel] at he
  | cons p rest ih =>
    obtain ⟨k, v⟩ := p
    intro e he
    by_cases h1 : k ∉ ids ∧ v.estado_monitor ≠ ("cancelada".toList)
    · rw [fase_cancel_cons_do ids ahora k v rest h1.1 h1.2] at he
      rcases List.mem_cons.mp he with h | h
      · simp [h, dictKeys_cons]
      · simp [dictKeys_cons, ih e h]
    · rw [fase_cancel_cons_skip ids ahora k v rest (by tauto)] at he
      simp [dictKeys_cons, ih e he]

theorem fase_cancel_keys (ids : List (List Char)) (ahora : List Char) (store : Dict) :
    dictKeys (fase_cancel ids ahora store).store = dictKeys store := by
  induction store with
  | nil => simp [fase_cancel, dictKeys]
  | cons p rest ih =>
    obtain ⟨k, v⟩ := p
    by_cases h1 : k ∉ ids ∧ v.estado_monitor ≠ ("cancelada".toList)
    · rw [fase_cancel_cons_do ids ahora k v rest h1.1 h1.2]
      simp [dictKeys_cons, ih]
    · rw [fase_cancel_cons_skip ids ahora k v rest (by tauto)]
      simp [dictKeys_cons, ih]

theorem fase_cancel_do (ids : List (List Char)) (ahora : List Char) (store : Dict)
    (k : List Char) (v : Alerta) (hnd : (dictKeys store).Nodup)
    (hm : (k, v) ∈ store) (hk : k ∉ ids)
    (hv : v.estado_monitor ≠ ("cancelada".toList)) :
    eventosDe k (fase_cancel ids ahora store).eventos =
      [⟨k, ("cancelada".toList), ahora, descNivelRegion v⟩] ∧
    dictLookup (fase_cancel ids ahora store).store k = some (marcarCancelada v) := by
  induction store with
  | nil => simp at hm
  | cons p rest ih =>
    obtain ⟨k', v'⟩ := p
    have hnd' := List.nodup_cons.mp (dictKeys_cons k' v' rest ▸ hnd)
    rcases List.mem_cons.mp hm with h | h
    · obtain ⟨hk1, hv1⟩ : k' = k ∧ v' = v := by
        constructor <;> [exact congrArg Prod.fst h.symm; exact congrArg Prod.snd h.symm]
      subst hk1
      subst hv1
      rw [fase_cancel_cons_do ids ahora k' v' rest hk hv]
      refine ⟨?_, ?_⟩
      · rw [eventosDe_cons, eventosDe_eq_nil k' _ (dictKeys rest)
          (fase_cancel_eventos_ids ids ahora rest) hnd'.1]
        simp
      · simp [dictLookup]
    · have hk2 : k' ≠ k := by
        intro he
        exact hnd'.1 (he ▸ List.mem_map_of_mem Prod.fst h)
      obtain ⟨he, hs⟩ := ih hnd'.2 h
      by_cases h1 : k' ∉ ids ∧ v'.estado_monitor ≠ ("cancelada".toList)
      · rw [fase_cancel_cons_do ids ahora k' v' rest h1.1 h1.2]
        refine ⟨?_, ?_⟩
        · rw [eventosDe_cons]
          simpa [hk2] using he
        · simpa [dictLookup, hk2] using hs
      · rw [fase_cancel_cons_skip ids ahora k' v' rest (by tauto)]
        exact ⟨he, by simpa [dictLookup, hk2] using hs⟩

theorem fase_cancel_skip (ids : List (List Char)) (ahora : List Char) (store : Dict)
    (k : List Char) (v : Alerta) (hnd : (dictKeys store).Nodup)
    (hm : (k, v) ∈ store)
    (hcond : k ∈ ids ∨ v.estado_monitor = ("cancelada".toList)) :
    eventosDe k (fase_cancel ids ahora store).eventos = [] ∧
    dictLookup (fase_cancel ids ahora store).store k = some v := by
  induction store with
  | nil => simp at hm
  | cons p rest ih =>
    obtain ⟨k', v'⟩ := p
    have hnd' := List.nodup_cons.mp (dictKeys_cons k' v' rest ▸ hnd)
    rcases List.mem_cons.mp hm with h | h
    · obtain ⟨hk1, hv1⟩ : k' = k ∧ v' = v := by
        constructor <;> [exact congrArg Prod.fst h.symm; exact congrArg Prod.snd h.symm]
      subst hk1
      subst hv1
      rw [fase_cancel_cons_skip ids ahora k' v' rest hcond]
      refine ⟨?_, ?_⟩
      · rw [eventosDe_eq_nil k' _ (dictKeys rest)
          (fase_cancel_eventos_ids ids ahora rest) hnd'.1]
      · simp [dictLookup]
    · have hk2 : k' ≠ k := by
        intro he
        exact hnd'.1 (he ▸ List.mem_map_of_mem Prod.fst h)
      obtain ⟨he, hs⟩ := ih hnd'.2 h
      by_cases h1 : k' ∉ ids ∧ v'.estado_monitor ≠ ("cancelada".toList)
      · rw [fase_cancel_cons_do ids ahora k' v' rest h1.1 h1.2]
        refine ⟨?_, ?_⟩
        · rw [eventosDe_cons]
          simpa [hk2] using he
        · simpa [dictLookup, hk2] using hs
      · rw [fase_cancel_cons_skip ids ahora k' v' rest (by tauto)]
        exact ⟨he, by simpa [dictLookup, hk2] using hs⟩

theorem fase_cancel_post (ids : List (List Char)) (ahora : List Char) (store : Dict) :
    ∀ (k : List Char) (v : Alerta),
      dictLookup (fase_cancel ids ahora store).store k = some v → k ∉ ids →
      v.estado_monitor = ("cancelada".toList) := by
  induction store with
  | nil =>
    intro k v hl _
    simp [fase_cancel, dictLookup] at hl
  | cons p rest ih =>
    obtain ⟨k', v'⟩ := p
    intro k v hl hk
    by_cases h1 : k' ∉ ids ∧ v'.estado_monitor ≠ ("cancelada".toList)
    · rw [fase_cancel_cons_do ids ahora k' v' rest h1.1 h1.2] at hl
      by_cases hk2 : k' = k
      · simp only [dictLookup, if_pos hk2] at hl
        obtain rfl : marcarCancelada v' = v := Option.some.inj hl
        rfl
      · simp only [dictLookup, if_neg hk2] at hl
        exact ih k v hl hk
    · rw [fase_cancel_cons_skip ids ahora k' v' rest (by tauto)] at hl
      by_cases hk2 : k' = k
      · subst hk2
        simp only [dictLookup, if_pos rfl] at hl
        obtain rfl : v' = v := Option.some.inj hl
        rcases not_and_or.mp h1 with h | h
        · exact absurd (not_not.mp h) hk
        · exact not_not.mp h
      · simp only [dictLookup, if_neg hk2] at hl
        exact ih k v hl hk

/-!
## No-op runs (for idempotence)
-/

theorem fase_batch_no_op (ahora : List Char) (batch : List Alerta) :
    ∀ (store : Dict),
      (∀ a ∈ batch, ∃ b, dictLookup store a.id = some b ∧
        a.contenido_hash = b.contenido_hash) →
      fase_batch ahora store batch =
        { store := store, eventos := [], nuevas := [], actualizadas := [] } := by
  induction batch with
  | nil =>
    intro store _
    simp [fase_batch]
  | cons a rest ih =>
    intro store h
    obtain ⟨b, hl, hh⟩ := h a (by simp)
    rw [fase_batch_cons_igual ahora store a b rest hl hh]
    exact ih store (fun x hx => h x (by simp [hx]))

theorem fase_cancel_no_op (ids : List (List Char)) (ahora : List Char) (store : Dict)
    (h : ∀ p ∈ store, p.1 ∈ ids ∨ p.2.estado_monitor = ("cancelada".toList)) :
    fase_cancel ids ahora store = { store := store, eventos := [], canceladas := [] } := by
  induction store with
  | nil => simp [fase_cancel]
  | cons p rest ih =>
    obtain ⟨k, v⟩ := p
    rw [fase_cancel_cons_skip ids ahora k v rest (h (k, v) (by simp))]
    rw [ih (fun q hq => h q (by simp [hq]))]

/-!
## Reconciliation: claim-level lemmas
-/

theorem cambiosEmitidos_eq (st : MonitorState) (batch : List Alerta) (ahora : List Char) :
    cambiosEmitidos st batch ahora =
      (fase_batch ahora st.alertas batch).eventos ++
      (fase_cancel (batch.map Alerta.id) ahora
        (fase_batch ahora st.alertas batch).store).eventos := by
  show (st.cambios ++ _ ++ _).drop st.cambios.length = _
  rw [List.append_assoc, List.drop_left]

theorem detectar_alertas_eq (st : MonitorState) (batch : List Alerta) (ahora : List Char) :
    (detectar_cambios st batch ahora).state.alertas =
      (fase_cancel (batch.map Alerta.id) ahora
        (fase_batch ahora st.alertas batch).store).store := rfl

/-- Per-identity transition behaviour of `_detectar_cambios` -- the shared
workhorse behind the reconciliation claims. -/
theorem reconcile_per_identity (st : MonitorState) (batch : List Alerta) (ahora : List Char)
    (hb : (batch.map Alerta.id).Nodup) (hs : (dictKeys st.alertas).Nodup) :
    (∀ a ∈ batch, dictLookup st.alertas a.id = none →
       eventosDe a.id (cambiosEmitidos st batch ahora) =
         [⟨a.id, ("nueva".toList), ahora, descNueva a⟩] ∧
       dictLookup (detectar_cambios st batch ahora).state.alertas a.id = some a) ∧
    (∀ a ∈ batch, ∀ prev, dictLookup st.alertas a.id = some prev →
       a.contenido_hash ≠ prev.contenido_hash →
       eventosDe a.id (cambiosEmitidos st batch ahora) =
         [⟨a.id, ("actualizada".toList), ahora, descNivelRegion a⟩] ∧
       dictLookup (detectar_cambios st batch ahora).state.alertas a.id = some a) ∧
    (∀ a ∈ batch, ∀ prev, dictLookup st.alertas a.id = some prev →
       a.contenido_hash = prev.contenido_hash →
       eventosDe a.id (cambiosEmitidos st batch ahora) = [] ∧
       dictLookup (detectar_cambios st batch ahora).state.alertas a.id = some prev) ∧
    (∀ k v, dictLookup st.alertas k = some v →
       v.estado_monitor ≠ ("cancelada".toList) → k ∉ batch.map Alerta.id →
       eventosDe k (cambiosEmitidos st batch ahora) =
         [⟨k, ("cancelada".toList), ahora, descNivelRegion v⟩] ∧
       dictLookup (detectar_cambios st batch ahora).state.alertas k =
         some (marcarCancelada v)) := by
  have hr1nd : (dictKeys (fase_batch ahora st.alertas batch).store).Nodup :=
    fase_batch_nodup ahora batch st.alertas hs
  refine ⟨?_, ?_, ?_, ?_⟩
  · intro a ha h0
    obtain ⟨he1, hs1⟩ := fase_batch_nueva ahora batch st.alertas a hb ha h0
    have hmem := dictLookup_mem _ _ _ hs1
    have hid : a.id ∈ batch.map Alerta.id := List.mem_map_of_mem Alerta.id ha
    obtain ⟨he2, hs2⟩ := fase_cancel_skip (batch.map Alerta.id) ahora
      (fase_batch ahora st.alertas batch).store a.id a hr1nd hmem (Or.inl hid)
    rw [cambiosEmitidos_eq, eventosDe_append, he1, he2, detectar_alertas_eq]
    exact ⟨rfl, hs2⟩
  · intro a ha prev h0 hh
    obtain ⟨he1, hs1⟩ := fase_batch_actualizada ahora batch st.alertas a prev hb ha h0 hh
    have hmem := dictLookup_mem _ _ _ hs1
    have hid : a.id ∈ batch.map Alerta.id := List.mem_map_of_mem Alerta.id ha
    obtain ⟨he2, hs2⟩ := fase_cancel_skip (batch.map Alerta.id) ahora
      (fase_batch ahora st.alertas batch).store a.id a hr1nd hmem (Or.inl hid)
    rw [cambiosEmitidos_eq, eventosDe_append, he1, he2, detectar_alertas_eq]
    exact ⟨rfl, hs2⟩
  · intro a ha prev h0 hh
    obtain ⟨he1, hs1⟩ := fase_batch_igual ahora batch st.alertas a prev hb ha h0 hh
    have hmem := dictLookup_mem _ _ _ hs1
    have hid : a.id ∈ batch.map Alerta.id := List.mem_map_of_mem Alerta.id ha
    obtain ⟨he2, hs2⟩ := fase_cancel_skip (batch.map Alerta.id) ahora
      (fase_batch ahora st.alertas batch).store a.id prev hr1nd hmem (Or.inl hid)
    rw [cambiosEmitidos_eq, eventosDe_append, he1, he2, detectar_alertas_eq]
    exact ⟨rfl, hs2⟩
  · intro k v h0 hv hk
    have he1 : eventosDe k (fase_batch ahora st.alertas batch).eventos = [] :=
      eventosDe_eq_nil k _ (batch.map Alerta.id)
        (fase_batch_eventos_ids ahora batch st.alertas) hk
    have hfr : dictLookup (fase_batch ahora st.alertas batch).store k =
        dictLookup st.alertas k := fase_batch_frame ahora batch st.alertas k hk
    have hmem := dictLookup_mem _ _ _ (hfr.trans h0)
    obtain ⟨he2, hs2⟩ := fase_cancel_do (batch.map Alerta.id) ahora
      (fase_batch ahora st.alertas batch).store k v hr1nd hmem hk hv
    rw [cambiosEmitidos_eq, eventosDe_append, he1, he2, detectar_alertas_eq]
    exact ⟨rfl, hs2⟩

theorem detectar_nodup (st : MonitorState) (batch : List Alerta) (ahora : List Char)
    (hs : (dictKeys st.alertas).Nodup) :
    (dictKeys (detectar_cambios st batch ahora).state.alertas).Nodup := by
  rw [detectar_alertas_eq, fase_cancel_keys]
  exact fase_batch_nodup ahora batch st.alertas hs

theorem detectar_lookup_batch (st : MonitorState) (batch : List Alerta)
    (ahora : List Char) (hb : (batch.map Alerta.id).Nodup)
    (hs : (dictKeys st.alertas).Nodup) :
    ∀ a ∈ batch, ∃ b, dictLookup (detectar_cambios st batch ahora).state.alertas a.id =
      some b ∧ a.contenido_hash = b.contenido_hash := by
  intro a ha
  rcases h0 : dictLookup st.alertas a.id with _ | prev
  · exact ⟨a, ((reconcile_per_identity st batch ahora hb hs).1 a ha h0).2, rfl⟩
  · by_cases hh : a.contenido_hash = prev.contenido_hash
    · exact ⟨prev, ((reconcile_per_identity st batch ahora hb hs).2.2.1 a ha prev h0 hh).2, hh⟩
    · exact ⟨a, ((reconcile_per_identity st batch ahora hb hs).2.1 a ha prev h0 hh).2, rfl⟩

theorem detectar_ausentes_canceladas (st : MonitorState) (batch : List Alerta)
    (ahora : List Char) :
    ∀ k v, dictLookup (detectar_cambios st batch ahora).state.alertas k = some v →
      k ∉ batch.map Alerta.id → v.estado_monitor = ("cancelada".toList) := by
  intro k v hl hk
  rw [detectar_alertas_eq] at hl
  exact fase_cancel_post (batch.map Alerta.id) ahora
    (fase_batch ahora st.alertas batch).store k v hl hk

/-- C2: reconciliation is idempotent — a second run of `_detectar_cambios`
with the identical batch emits no change events and reports no new, updated
or retracted alerts, under the `dict` invariant on the store and
pairwise-distinct identities in the batch (guaranteed by `obtener_alertas`). -/
theorem C2_reconcile_idempotente (st : MonitorState) (batch : List Alerta)
    (ahora ahora2 : List Char) (hb : (batch.map Alerta.id).Nodup)
    (hs : (dictKeys st.alertas).Nodup) :
    cambiosEmitidos (detectar_cambios st batch ahora).state batch ahora2 = [] ∧
    (detectar_cambios (detectar_cambios st batch ahora).state batch ahora2).nuevas = [] ∧
    (detectar_cambios (detectar_cambios st batch ahora).state batch ahora2).actualizadas
      = [] ∧
    (detectar_cambios (detectar_cambios st batch ahora).state batch ahora2).canceladas
      = [] := by
  have hnd1 := detectar_nodup st batch ahora hs
  have H1 := detectar_lookup_batch st batch ahora hb hs
  have H2 : ∀ p ∈ (detectar_cambios st batch ahora).state.alertas,
      p.1 ∈ batch.map Alerta.id ∨ p.2.estado_monitor = ("cancelada".toList) := by
    intro p hp
    by_cases hkin : p.1 ∈ batch.map Alerta.id
    · exact Or.inl hkin
    · refine Or.inr ?_
      have hl := mem_dictLookup _ p.1 p.2 hnd1 (by simpa using hp)
      exact detectar_ausentes_canceladas st batch ahora p.1 p.2 hl hkin
  have hb1 : fase_batch ahora2 (detectar_cambios st batch ahora).state.alertas batch =
      { store := (detectar_cambios st batch ahora).state.alertas, eventos := [],
        nuevas := [], actualizadas := [] } := by
    apply fase_batch_no_op
    intro a ha
    obtain ⟨b, hlb, hhb⟩ := H1 a ha
    exact ⟨b, hlb, hhb⟩
  have hc1 : fase_cancel (batch.map Alerta.id) ahora2
      (detectar_cambios st batch ahora).state.alertas =
      { store := (detectar_cambios st batch ahora).state.alertas, eventos := [],
        canceladas := [] } :=
    fase_cancel_no_op (batch.map Alerta.id) ahora2 _ H2
  refine ⟨?_, ?_, ?_, ?_⟩
  · rw [cambiosEmitidos_eq, hb1]
    simp only []
    rw [hc1]
    simp
  · show (fase_batch ahora2 (detectar_cambios st batch ahora).state.alertas batch).nuevas
      = []
    rw [hb1]
  · show (fase_batch ahora2
      (detectar_cambios st batch ahora).state.alertas batch).actualizadas = []
    rw [hb1]
  · show (fase_cancel (batch.map Alerta.id) ahora2
      (fase_batch ahora2 (detectar_cambios st batch ahora).state.alertas batch).store).canceladas = []
    rw [hb1]
    simp only []
    rw [hc1]

/-- C1: `_detectar_cambios` implements the per-identity state machine.  A
batch record whose identity is absent from the store gets exactly one
"nueva" event and is inserted; one whose identity is stored with a differing
`contenido_hash` gets exactly one "actualizada" event and replaces the
stored record; one with an identical fingerprint produces no event; and a
stored identity with non-retracted status that is absent from the batch gets
exactly one "cancelada" event, its `estado_monitor` flipped, and its record
kept in the store.  Hypotheses: the store satisfies the `dict` invariant
(no duplicate keys) and the batch has pairwise-distinct identities, which
`obtener_alertas` guarantees by dropping duplicate ids. -/
theorem C1_maquina_de_estados (st : MonitorState) (batch : List Alerta)
    (ahora : List Char) (hb : (batch.map Alerta.id).Nodup)
    (hs : (dictKeys st.alertas).Nodup) :
    (∀ a ∈ batch, dictLookup st.alertas a.id = none →
       eventosDe a.id (cambiosEmitidos st batch ahora) =
         [⟨a.id, ("nueva".toList), ahora, descNueva a⟩] ∧
       dictLookup (detectar_cambios st batch ahora).state.alertas a.id = some a) ∧
    (∀ a ∈ batch, ∀ prev, dictLookup st.alertas a.id = some prev →
       a.contenido_hash ≠ prev.contenido_hash →
       eventosDe a.id (cambiosEmitidos st batch ahora) =
         [⟨a.id, ("actualizada".toList), ahora, descNivelRegion a⟩] ∧
       dictLookup (detectar_cambios st batch ahora).state.alertas a.id = some a) ∧
    (∀ a ∈ batch, ∀ prev, dictLookup st.alertas a.id = some prev →
       a.contenido_hash = prev.contenido_hash →
       eventosDe a.id (cambiosEmitidos st batch ahora) = [] ∧
       dictLookup (detectar_cambios st batch ahora).state.alertas a.id = some prev) ∧
    (∀ k v, dictLookup st.alertas k = some v →
       v.estado_monitor ≠ ("cancelada".toList) → k ∉ batch.map Alerta.id →
       eventosDe k (cambiosEmitidos st batch ahora) =
         [⟨k, ("cancelada".toList), ahora, descNivelRegion v⟩] ∧
       dictLookup (detectar_cambios st batch ahora).state.alertas k =
         some (marcarCancelada v)) :=
  reconcile_per_identity st batch ahora hb hs

/-!
## Concrete test data for witnesses and counterexamples
-/

def ahora0 : List Char := "12/10/2026 08:00".toList

def idX : List Char := "alerta-x".toList

/-- A concrete record with the given fingerprint and lifecycle status. -/
def mkAlertaC (hash estado : List Char) : Alerta :=
  ⟨idX, ("https://senapred.cl/alerta/alerta-x".toList), ("roja".toList),
   ("Alerta Roja".toList), ("Maule".toList), [], [], [], ("Emergencia".toList),
   [], [], [], [], [], [], [], [], [], [], [], [], [], [], [], [], [],
   estado, hash, 0⟩

def bX : Alerta := mkAlertaC ("h1".toList) ("cancelada".toList)

def aX : Alerta := mkAlertaC ("h1".toList) ("activa".toList)

def aY : Alerta := mkAlertaC ("h2".toList) ("activa".toList)

def stVacio : MonitorState := ⟨[], []⟩

def stC3 : MonitorState := ⟨[(idX, bX)], []⟩

theorem C1_maquina_de_estados_witness :
    ((([aX].map Alerta.id).Nodup ∧ (dictKeys stVacio.alertas).Nodup) ∧
     eventosDe aX.id (cambiosEmitidos stVacio [aX] ahora0) =
       [⟨aX.id, ("nueva".toList), ahora0, descNueva aX⟩] ∧
     dictLookup (detectar_cambios stVacio [aX] ahora0).state.alertas aX.id = some aX) :=
  ⟨⟨by decide, by decide⟩,
   (C1_maquina_de_estados stVacio [aX] ahora0 (by decide) (by decide)).1 aX
     (by decide) (by decide)⟩

theorem C2_reconcile_idempotente_witness :
    ((([aX].map Alerta.id).Nodup ∧ (dictKeys stC3.alertas).Nodup) ∧
     cambiosEmitidos (detectar_cambios stC3 [aX] ahora0).state [aX] ahora0 = []) :=
  ⟨⟨by decide, by decide⟩,
   (C2_reconcile_idempotente stC3 [aX] ahora0 ahora0 (by decide) (by decide)).1⟩

/-- C3 counterexample: a retracted identity (`bX`, stored as "cancelada")
reappears in the batch with identical fingerprint (`aX`).  The claim says a
fresh "nueva" (created) event is emitted and the status returns to "activa";
the code emits no event at all and the stored record keeps status
"cancelada". -/
theorem C3_counterexample :
    dictLookup stC3.alertas aX.id = some bX ∧
    bX.estado_monitor = ("cancelada".toList) ∧
    cambiosEmitidos stC3 [aX] ahora0 = [] ∧
    (dictLookup (detectar_cambios stC3 [aX] ahora0).state.alertas aX.id).map
      Alerta.estado_monitor = some ("cancelada".toList) := by
  decide

/-- C3 amended: when a retracted identity reappears in a batch,
`_detectar_cambios` treats it exactly like any stored identity: a differing
fingerprint yields one "actualizada" event (not "nueva") and the stored
record is replaced by the batch record (which carries the extractor's
"activa" status); an identical fingerprint yields no event and the record
stays retracted in the store. -/
theorem C3_amended_reaparicion (st : MonitorState) (batch : List Alerta)
    (ahora : List Char) (a b : Alerta) (hb : (batch.map Alerta.id).Nodup)
    (hs : (dictKeys st.alertas).Nodup) (ha : a ∈ batch)
    (hl : dictLookup st.alertas a.id = some b)
    (_hc : b.estado_monitor = ("cancelada".toList)) :
    (a.contenido_hash ≠ b.contenido_hash →
       eventosDe a.id (cambiosEmitidos st batch ahora) =
         [⟨a.id, ("actualizada".toList), ahora, descNivelRegion a⟩] ∧
       dictLookup (detectar_cambios st batch ahora).state.alertas a.id = some a) ∧
    (a.contenido_hash = b.contenido_hash →
       eventosDe a.id (cambiosEmitidos st batch ahora) = [] ∧
       dictLookup (detectar_cambios st batch ahora).state.alertas a.id = some b) :=
  ⟨fun hh => (reconcile_per_identity st batch ahora hb hs).2.1 a ha b hl hh,
   fun hh => (reconcile_per_identity st batch ahora hb hs).2.2.1 a ha b hl hh⟩

theorem C3_amended_reaparicion_witness :
    ((([aY].map Alerta.id).Nodup ∧ (dictKeys stC3.alertas).Nodup ∧ aY ∈ [aY] ∧
      dictLookup stC3.alertas aY.id = some bX ∧
      bX.estado_monitor = ("cancelada".toList) ∧
      aY.contenido_hash ≠ bX.contenido_hash) ∧
     eventosDe aY.id (cambiosEmitidos stC3 [aY] ahora0) =
       [⟨aY.id, ("actualizada".toList), ahora0, descNivelRegion aY⟩] ∧
     dictLookup (detectar_cambios stC3 [aY] ahora0).state.alertas aY.id = some aY) :=
  ⟨⟨by decide, by decide, by decide, by decide, by decide, by decide⟩,
   (C3_amended_reaparicion stC3 [aY] ahora0 aY bX (by decide) (by decide)
     (by decide) (by decide) (by decide)).1 (by decide)⟩

/-!
## Extraction claims
-/

def nowW : Ahora :=
  ⟨days_from_civil 2026 10 12, 2026, "12/10/2026".toList, "12/10/2026 08:00".toList⟩

def md5W : List Char → List Char := fun _ => []

def urlW : List Char := "https://senapred.cl/alerta/alerta-x".toList

/-- C4: extraction discards a candidate exactly when no category marker is
recognised -- `_extraer_detalle_completo` returns `None` iff `_detectar_tipo`
returns `None`, and that happens iff none of the four markers occurs in the
lowercased text; for every other input the record is produced, every other
field degrading to its default. -/
theorem C4_descarta_solo_sin_categoria (now : Ahora) (md5hex : List Char → List Char)
    (url texto : List Char) :
    (extraer_detalle_completo now md5hex url texto = none ↔
       detectar_tipo texto = none) ∧
    (detectar_tipo texto = none ↔
       ¬ occursL ("alerta roja".toList) (lowerL texto) ∧
       ¬ occursL ("alerta amarilla".toList) (lowerL texto) ∧
       ¬ occursL ("alerta temprana".toList) (lowerL texto) ∧
       ¬ occursL ("preventiva".toList) (lowerL texto)) := by
  constructor
  · cases h : detectar_tipo texto <;> simp [extraer_detalle_completo, h]
  · by_cases h1 : occursL ("alerta roja".toList) (lowerL texto) <;>
    by_cases h2 : occursL ("alerta amarilla".toList) (lowerL texto) <;>
    by_cases h3 : occursL ("alerta temprana".toList) (lowerL texto) <;>
    by_cases h4 : occursL ("preventiva".toList) (lowerL texto) <;>
    simp at h1 h2 h3 h4 <;>
    simp [detectar_tipo, h1, h2, h3, h4]

theorem C4_descarta_solo_sin_categoria_witness :
    extraer_detalle_completo nowW md5W urlW ("texto sin marcador".toList) = none :=
  (C4_descarta_solo_sin_categoria nowW md5W urlW ("texto sin marcador".toList)).1.mpr
    (by decide)

/-- C10: a text containing "preventiva" but none of "alerta roja",
"alerta amarilla", "alerta temprana preventiva" extracts successfully with
`tipo = "temprana"` while `nivel_alerta` is the "No especificado" sentinel. -/
theorem C10_preventiva_sin_nivel (now : Ahora) (md5hex : List Char → List Char)
    (url texto : List Char)
    (hp : occursL ("preventiva".toList) (lowerL texto))
    (h1 : ¬ occursL ("alerta roja".toList) (lowerL texto))
    (h2 : ¬ occursL ("alerta amarilla".toList) (lowerL texto))
    (h3 : ¬ occursL ("alerta temprana preventiva".toList) (lowerL texto)) :
    detectar_tipo texto = some ("temprana".toList) ∧
    extraer_nivel_alerta texto = ("No especificado".toList) ∧
    ((extraer_detalle_completo now md5hex url texto).map Alerta.tipo =
       some ("temprana".toList)) := by
  have hp' := hp
  have h1' := h1
  have h2' := h2
  have h3' := h3
  simp at hp' h1' h2' h3'
  have ht : detectar_tipo texto = some ("temprana".toList) := by
    simp [detectar_tipo, h1', h2', hp']
  refine ⟨ht, ?_, ?_⟩
  · simp [extraer_nivel_alerta, h1', h2', h3']
  · simp [extraer_detalle_completo, ht]

theorem C10_preventiva_sin_nivel_witness :
    ((occursL ("preventiva".toList) (lowerL ("zona preventiva".toList)) ∧
      ¬ occursL ("alerta roja".toList) (lowerL ("zona preventiva".toList)) ∧
      ¬ occursL ("alerta amarilla".toList) (lowerL ("zona preventiva".toList)) ∧
      ¬ occursL ("alerta temprana preventiva".toList)
        (lowerL ("zona preventiva".toList))) ∧
     detectar_tipo ("zona preventiva".toList) = some ("temprana".toList) ∧
     extraer_nivel_alerta ("zona preventiva".toList) = ("No especificado".toList) ∧
     ((extraer_detalle_completo nowW md5W urlW ("zona preventiva".toList)).map
        Alerta.tipo = some ("temprana".toList))) :=
  ⟨⟨by decide, by decide, by decide, by decide⟩,
   C10_preventiva_sin_nivel nowW md5W urlW ("zona preventiva".toList)
     (by decide) (by decide) (by decide) (by decide)⟩

def textoC5 : List Char := "alerta roja".toList

/-- C5 counterexample: the claim says every unrecognised location field is an
explicit non-empty "unspecified" sentinel.  On a text with a recognised
category but no recognisable locations, the region indeed defaults to the
sentinel "No especificada", but `provincias`, `comunas` and
`zonas_afectadas` default to the empty string. -/
theorem C5_counterexample :
    (extraer_detalle_completo nowW md5W urlW textoC5).map
      (fun a => (a.region, a.provincias, a.comunas, a.zonas_afectadas)) =
      some (("No especificada".toList), [], [], []) := by
  decide

theorem joinComma_nil : joinComma [] = [] := rfl

/-- C5 amended: on extraction, an unrecognisable region degrades to the
explicit sentinel "No especificada" (no exception is possible: the extractors
are total), while unrecognised `provincias`, `comunas` and `zonas_afectadas`
degrade to the empty string, not to a non-empty sentinel. -/
theorem C5_amended_valores_por_defecto (texto : List Char)
    (hr : ∀ r ∈ REGIONES_CHILE, ¬ occursL (lowerL r) (lowerL texto))
    (hrx : reSearch1 regionPat texto = none)
    (hpv : reSearch1 provinciasPat texto = none)
    (hcm : reSearch1 comunasPat texto = none)
    (hz : ∀ z ∈ zonas_posibles, ¬ occursL z (lowerL texto)) :
    extraer_region texto = ("No especificada".toList) ∧
    extraer_provincias texto = [] ∧
    extraer_comunas texto = [] ∧
    extraer_zonas texto = [] := by
  refine ⟨?_, ?_, ?_, ?_⟩
  · have hf : REGIONES_CHILE.find? (fun r => occursL (lowerL r) (lowerL texto)) = none :=
      List.find?_eq_none.mpr (fun r hrm => by simpa using hr r hrm)
    simp [extraer_region, hf, hrx]
  · simp [extraer_provincias, hpv]
  · simp [extraer_comunas, hcm]
  · have hf : zonas_posibles.filter (fun z => occursL z (lowerL texto)) = [] :=
      List.filter_eq_nil_iff.mpr (fun z hz2 => by simpa using hz z hz2)
    simp [extraer_zonas, hf, joinComma_nil]

theorem C5_amended_valores_por_defecto_witness :
    (((∀ r ∈ REGIONES_CHILE, ¬ occursL (lowerL r) (lowerL textoC5)) ∧
      reSearch1 regionPat textoC5 = none ∧
      reSearch1 provinciasPat textoC5 = none ∧
      reSearch1 comunasPat textoC5 = none ∧
      (∀ z ∈ zonas_posibles, ¬ occursL z (lowerL textoC5))) ∧
     extraer_region textoC5 = ("No especificada".toList) ∧
     extraer_provincias textoC5 = [] ∧
     extraer_comunas textoC5 = [] ∧
     extraer_zonas textoC5 = []) :=
  ⟨⟨by decide, by decide, by decide, by decide, by decide⟩,
   C5_amended_valores_por_defecto textoC5 (by decide) (by decide) (by decide)
     (by decide) (by decide)⟩

/-!
## Identity assignment (C6)
-/

def urlC6a : List Char := "https://senapred.cl/alerta/alerta-x".toList

def urlC6b : List Char := "https://example.org/otra-ruta/alerta-x".toList

/-- C6 counterexample: identity assignment is not a hash and is not
collision-resistant -- two distinct locators sharing their final path
segment receive the same identity. -/
theorem C6_counterexample :
    urlC6a ≠ urlC6b ∧
    generar_id_desde_url urlC6a = generar_id_desde_url urlC6b := by
  decide

/-- The last `/`-separated segment of a locator after stripping trailing
slashes. -/
def ultimoSegmento (url : List Char) : List Char :=
  (splitSlash (rstripSlash url)).getLastD []

theorem rstripSlash_append_slash (url : List Char) :
    rstripSlash (url ++ ['/']) = rstripSlash url := by
  simp [rstripSlash, List.dropWhile]

/-- C6 amended: `generar_id_desde_url` is the final path segment of the
locator (after stripping trailing slashes) truncated to 80 characters.  It is
deterministic and insensitive to trailing slashes, but any two locators
sharing that segment collide; it is not a hash. -/
theorem C6_amended_segmento :
    (∀ url, generar_id_desde_url url = (ultimoSegmento url).take 80) ∧
    (∀ url, generar_id_desde_url (url ++ ['/']) = generar_id_desde_url url) ∧
    (∀ u1 u2, ultimoSegmento u1 = ultimoSegmento u2 →
       generar_id_desde_url u1 = generar_id_desde_url u2) := by
  refine ⟨fun url => rfl, ?_, ?_⟩
  · intro url
    simp only [generar_id_desde_url, rstripSlash_append_slash]
  · intro u1 u2 h
    show (ultimoSegmento u1).take 80 = (ultimoSegmento u2).take 80
    rw [h]

theorem C6_amended_segmento_witness :
    (ultimoSegmento urlC6a = ultimoSegmento urlC6b ∧
     generar_id_desde_url urlC6a = generar_id_desde_url urlC6b) :=
  ⟨by decide, C6_amended_segmento.2.2 urlC6a urlC6b (by decide)⟩

/-!
## State loading (C7)
-/

def archivoC7 : EstadoArchivo := .datos [some aX, none] []

/-- C7 counterexample: a persisted state with two record entries whose second
entry is malformed (its dataclass construction raises) loads into a store
holding exactly the first record -- neither empty nor fully populated, so
loading a malformed resource can leave a partially populated store. -/
theorem C7_counterexample :
    cargar_estado archivoC7 = ⟨[(idX, aX)], []⟩ ∧
    (cargar_estado archivoC7).alertas ≠ [] ∧
    (cargar_estado archivoC7).alertas.length = 1 := by
  decide

theorem cargarLista_eq {α : Type} (l : List (Option α)) :
    cargarLista l = ((l.takeWhile Option.isSome).filterMap id, !l.all Option.isSome) := by
  induction l with
  | nil => rfl
  | cons o rest ih =>
    cases o with
    | none => simp [cargarLista, List.takeWhile_cons, List.all_cons]
    | some a => simp [cargarLista, List.takeWhile_cons, List.all_cons, ih]

/-- C7 amended: a missing resource and a top-level-unreadable resource load
as the empty store; a well-formed resource loads completely; but a malformed
record entry aborts the loop, keeping exactly the records before it (a
partially populated store) and, if the failure was among the records,
dropping all change entries.  The loader never raises. -/
theorem C7_amended_carga (xs : List (Option Alerta)) (cs : List (Option CambioEstado)) :
    cargar_estado .ausente = ⟨[], []⟩ ∧
    cargar_estado .ilegible = ⟨[], []⟩ ∧
    (cargar_estado (.datos xs cs)).alertas =
      ((xs.takeWhile Option.isSome).filterMap id).foldl
        (fun d a => dictSet d a.id a) [] ∧
    (cargar_estado (.datos xs cs)).cambios =
      (if xs.all Option.isSome then (cs.takeWhile Option.isSome).filterMap id
       else []) := by
  refine ⟨rfl, rfl, ?_, ?_⟩
  · simp only [cargar_estado, cargarLista_eq]
    split <;> rfl
  · by_cases h : xs.all Option.isSome <;>
      simp [cargar_estado, cargarLista_eq, h]

theorem C7_amended_carga_witness :
    ((cargar_estado (.datos [some aX, none] [])).alertas =
       (([some aX, none].takeWhile Option.isSome).filterMap id).foldl
         (fun d a => dictSet d a.id a) [] ∧
     (cargar_estado (.datos [some aX, none] [])).cambios =
       (if [some aX, none].all Option.isSome then
          (([] : List (Option CambioEstado)).takeWhile Option.isSome).filterMap id
        else [])) :=
  ⟨(C7_amended_carga [some aX, none] []).2.2.1,
   (C7_amended_carga [some aX, none] []).2.2.2⟩

/-!
## Declaration date strategies (C8)
-/

def urlC8 : List Char := "https://senapred.cl/alerta/prueba".toList

def textoC8 : List Char :=
  "alerta roja por calor. 05 de enero de 2030 a las 10:30.".toList

/-- C8 counterexample: on a locator with no embedded date pattern and a text
whose localized date phrase `parsear_fecha_texto` parses successfully
("05/01/2030", "10:30"), extraction nevertheless sets the declaration date to
the observation date and the hour to the "--:--" marker: the text-parsing
strategy the claim lists as step (2) is never consulted
(`parsear_fecha_texto` has no caller). -/
theorem C8_counterexample :
    parsear_fecha_texto textoC8 = (("05/01/2030".toList), ("10:30".toList)) ∧
    parsear_fecha_desde_url urlC8 = ([], []) ∧
    (extraer_detalle_completo nowW md5W urlC8 textoC8).map
      (fun a => (a.fecha_declaracion, a.hora_declaracion)) =
      some (("12/10/2026".toList), ("--:--".toList)) := by
  decide

/-- C8 amended: the declaration date is computed by two strategies only --
parse the date-time pattern embedded in the locator, else default to the
observation date with the "--:--" hour marker.  The text-based strategy
(`parsear_fecha_texto`) exists in the source but is never invoked. -/
theorem C8_amended_dos_estrategias (now : Ahora) (md5hex : List Char → List Char)
    (url texto : List Char) (tipo : List Char)
    (ht : detectar_tipo texto = some tipo) :
    ((parsear_fecha_desde_url url).1 ≠ [] →
       (extraer_detalle_completo now md5hex url texto).map Alerta.fecha_declaracion =
         some (parsear_fecha_desde_url url).1) ∧
    ((parsear_fecha_desde_url url).1 = [] →
       (extraer_detalle_completo now md5hex url texto).map Alerta.fecha_declaracion =
         some now.fecha) ∧
    ((parsear_fecha_desde_url url).2 ≠ [] →
       (extraer_detalle_completo now md5hex url texto).map Alerta.hora_declaracion =
         some (parsear_fecha_desde_url url).2) ∧
    ((parsear_fecha_desde_url url).2 = [] →
       (extraer_detalle_completo now md5hex url texto).map Alerta.hora_declaracion =
         some ("--:--".toList)) := by
  refine ⟨?_, ?_, ?_, ?_⟩ <;> intro h <;> simp [extraer_detalle_completo, ht, pyOr, h]

/-- A locator carrying the date pattern, for the C8 witness. -/
def urlU1 : List Char :=
  "https://senapred.cl/alerta/alerta-2026-01-05-10-30-00".toList

theorem C8_amended_dos_estrategias_witness :
    ((detectar_tipo textoC5 = some ("roja".toList) ∧
      (parsear_fecha_desde_url urlU1).1 ≠ []) ∧
     (extraer_detalle_completo nowW md5W urlU1 textoC5).map Alerta.fecha_declaracion =
       some (parsear_fecha_desde_url urlU1).1) :=
  ⟨⟨by decide, by decide⟩,
   (C8_amended_dos_estrategias nowW md5W urlU1 textoC5 ("roja".toList)
     (by decide)).1 (by decide)⟩

/-!
## Age in days (C9)
-/

/-- C9 counterexample: a declaration date one day in the future of the
observation date yields an age of `-1`: `calcular_antiguedad_dias` performs
no clamping to zero. -/
theorem C9_counterexample :
    calcular_antiguedad_dias (days_from_civil 2026 10 12) ("13/10/2026".toList) = -1 ∧
    ¬ (0 ≤ calcular_antiguedad_dias (days_from_civil 2026 10 12)
        ("13/10/2026".toList)) := by
  decide

/-- C9 amended: for a parseable, calendar-valid `dd/mm/yyyy` string the age
is exactly the difference of civil day numbers, with no clamping -- negative
for declaration dates in the future; any unparseable or invalid date yields
`0`. -/
theorem C9_amended_sin_clamp (nowDays : Int) (s : List Char) (d m y : Int)
    (hc : s.contains '/')
    (hp : (splitSlash s).map pyInt = [some d, some m, some y])
    (hv : datetimeValida y m d) :
    calcular_antiguedad_dias nowDays s = nowDays - days_from_civil y m d := by
  simp [calcular_antiguedad_dias, hc, hp, hv]
  intro h
  exact absurd (by simpa using hc) h

theorem C9_amended_sin_clamp_witness :
    ((("13/10/2026".toList).contains '/' ∧
      (splitSlash ("13/10/2026".toList)).map pyInt =
        [some 13, some 10, some 2026] ∧
      datetimeValida 2026 10 13) ∧
     calcular_antiguedad_dias (days_from_civil 2026 10 12) ("13/10/2026".toList) =
       days_from_civil 2026 10 12 - days_from_civil 2026 10 13) :=
  ⟨⟨by decide, by decide, by decide⟩,
   C9_amended_sin_clamp (days_from_civil 2026 10 12) ("13/10/2026".toList)
     13 10 2026 (by decide) (by decide) (by decide)⟩
